import Mathlib

/-!
# npctl: control utility for the NeXT laser printer

A shallow embedding of `src/npctl.c`.  Every C function becomes a Lean function that
passes the process state `St` explicitly.  The operating system and the device are an
arbitrary deterministic environment `Env`: the reply to a system call is a function of
the whole history of events up to and including that call.  The constants of the
system headers (`<bsd/dev/m68k/npio.h>`, `<errno.h>`, `<fcntl.h>`) are not part of the
repository; they are the fields of `Hdr` and every result holds for all their values
unless a hypothesis says otherwise.

Undefined behaviour of the C program (reading `argv` past its end, indexing the table
`sizes` out of bounds, overflowing the buffer `cmd` of `print_file`) is the result
`none` of the functions that can reach it.
-/

namespace Npctl

/-! ## Data model -/

/-- An argument of a `printf`-style call. -/
inductive Arg where
  | int (i : Int)
  | nat (n : Nat)
  | str (s : String)
deriving DecidableEq, Repr

/-- The member `np_margins` of `struct npop`. -/
structure NpMargins where
  left : Int
  top : Int
  width : Int
  height : Int
deriving DecidableEq, Repr

/-- The member `np_status` of `struct npop`: the 32-bit condition mask and the
retransmit page count. -/
structure NpStatus where
  flags : Nat
  retrans : Nat
deriving DecidableEq, Repr

/-- The record `struct npop` of the control call.  The members of its union are kept
as separate fields: every function clears the record, writes the one member that goes
with the op code and reads back only the member that goes with it. -/
structure Npop where
  np_op : Int
  np_power : Int
  np_resolution : Int
  np_margins : NpMargins
  np_status : NpStatus
  np_size : Int
deriving DecidableEq, Repr

/-- The record after `memset(&op, 0, sizeof(op))`. -/
def Npop.zero : Npop :=
  { np_op := 0, np_power := 0, np_resolution := 0,
    np_margins := { left := 0, top := 0, width := 0, height := 0 },
    np_status := { flags := 0, retrans := 0 }, np_size := 0 }

/-- The constants the program takes from the system headers. -/
structure Hdr where
  NPSETPOWER : Int
  NPSETRESOLUTION : Int
  NPSETMARGINS : Int
  NPGETSTATUS : Int
  NPGETPAPERSIZE : Int
  NPIOCPOP : Int
  DPI300 : Int
  DPI400 : Int
  NPPAPERDELIVERY : Nat
  NPDATARETRANS : Nat
  NPCOLD : Nat
  NPNOCARTRIDGE : Nat
  NPNOPAPER : Nat
  NPPAPERJAM : Nat
  NPDOOROPEN : Nat
  NPNOTONER : Nat
  NPHARDWAREBAD : Nat
  NPMANUALFEED : Nat
  NPFUSERBAD : Nat
  NPLASERBAD : Nat
  NPMOTORBAD : Nat
  ENOINIT : Int
  EDEVERR : Int
  ENXIO : Int
  EIO : Int
  EBUSY : Int
  O_RDWR : Int

/-- One observable action of the process, in program order. -/
inductive Event where
  | sys_open (path : String) (flags : Int) (mode : Int)
  | sys_ioctl (fd : Int) (request : Int) (op : Npop)
  | sys_close (fd : Int)
  | sys_sleep (seconds : Nat)
  | sys_geteuid
  | sys_system (cmd : String)
  | sys_mkstemp (template : String)
  | sys_fdopen (fd : Int) (mode : String)
  | sys_fclose
  | sys_unlink (path : String)
  | printf (fmt : String) (args : List Arg)
  | fprintf_stderr (fmt : String) (args : List Arg)
  | fprintf_file (fmt : String) (args : List Arg)
  | perror (s : String) (errno : Int)
deriving DecidableEq, Repr

/-- What the environment answers to a call: the returned value, the value of `errno`
after the call, the record written back by `ioctl`, the name written back by
`mkstemp`. -/
structure Reply where
  ret : Int
  errno : Int
  op : Npop
  name : String

/-- The operating system, the device and the C library. -/
structure Env where
  reply : List Event → Reply
  strerror : Int → String
  atoi : String → Int

/-- An entry into a function of `npctl.c`. This log is a ghost of the model: no
source statement writes it and the environment never sees it. -/
inductive Call where
  | usage (p : String)
  | explain_errno (msg : String)
  | open_printer (flags : Int)
  | set_power (on_ : Int)
  | reset_printer
  | set_resolution (dpi : Int)
  | set_margins (left top width height : Int)
  | query_status (fd : Int) (verbose_flag : Int)
  | print_file (path : String)
  | demo_page
deriving DecidableEq, Repr

/-- The state of the process: the global `verbose`, `errno`, the events so far and the
ghost log of function entries. -/
structure St where
  verbose : Int
  errno : Int
  trace : List Event
  calls : List Call
deriving DecidableEq, Repr

/-- The state at the entry of `main`. -/
def St.init : St := { verbose := 0, errno := 0, trace := [], calls := [] }

/-- A call into the environment: the event is recorded, the reply is the one the
environment gives to the history ending in it, and `errno` is what the call leaves. -/
def syscall (env : Env) (e : Event) (s : St) : Reply × St :=
  let t := s.trace ++ [e]
  let r := env.reply t
  (r, { s with trace := t, errno := r.errno })

/-- An output call whose result the program ignores. -/
def emit (e : Event) (s : St) : St := { s with trace := s.trace ++ [e] }

/-- The statement `if (c) printf(...);`: an output call made when `c` holds. -/
def emit_if (c : Prop) [Decidable c] (e : Event) (s : St) : St :=
  if c then emit e s else s

/-- Ghost: record the entry into a function. -/
def enter (c : Call) (s : St) : St := { s with calls := s.calls ++ [c] }

/-- The macro `PRINTER_DEV`. -/
def PRINTER_DEV : String := "/dev/np0"

/-! ## The functions of `npctl.c` -/

/-- The function `usage` (lines 63-77). -/
def usage (p : String) (s : St) : St :=
  let s := enter (.usage p) s
  emit (.fprintf_stderr
    ("Usage:\n" ++
     "  %s [-v] on\n" ++
     "  %s [-v] off\n" ++
     "  %s [-v] reset\n" ++
     "  %s [-v] status\n" ++
     "  %s [-v] setdpi <300|400>\n" ++
     "  %s [-v] setmargins <left> <top> <width> <height>\n" ++
     "  %s [-v] print <file.ps>\n" ++
     "  %s [-v] demo\n")
    [.str p, .str p, .str p, .str p, .str p, .str p, .str p, .str p]) s

/-- The function `explain_errno` (lines 80-91): a `switch` on `errno`. -/
def explain_errno (h : Hdr) (env : Env) (msg : String) (s : St) : St :=
  let s := enter (.explain_errno msg) s
  if s.errno = h.ENOINIT then
    emit (.fprintf_stderr "%s: Margins not set before write\n" [.str msg]) s
  else if s.errno = h.EDEVERR then
    emit (.fprintf_stderr "%s: Printer is in error state\n" [.str msg]) s
  else if s.errno = h.ENXIO then
    emit (.fprintf_stderr "%s: Unknown command or device\n" [.str msg]) s
  else if s.errno = h.EIO then
    emit (.fprintf_stderr "%s: I/O error talking to printer\n" [.str msg]) s
  else if s.errno = h.EBUSY then
    emit (.fprintf_stderr "%s: Printer already in use\n" [.str msg]) s
  else
    emit (.fprintf_stderr "%s: %s\n" [.str msg, .str (env.strerror s.errno)]) s

/-- The function `open_printer` (lines 94-105). -/
def open_printer (h : Hdr) (env : Env) (flags : Int) (s : St) : Int × St :=
  let s := enter (.open_printer flags) s
  let (r, s) := syscall env (.sys_open PRINTER_DEV flags 0) s
  let fd := r.ret
  let s :=
    if fd < 0 then explain_errno h env "open" s
    else if s.verbose ≠ 0 then
      emit (.printf "[VERBOSE] Opened printer device %s\n" [.str PRINTER_DEV]) s
    else s
  (fd, s)

/-- The function `set_power` (lines 108-133). -/
def set_power (h : Hdr) (env : Env) (on_ : Int) (s : St) : Int × St :=
  let s := enter (.set_power on_) s
  let (fd, s) := open_printer h env h.O_RDWR s
  if fd < 0 then (-1, s)
  else
    let op : Npop := { Npop.zero with np_op := h.NPSETPOWER }
    let op : Npop := { op with np_power := if on_ ≠ 0 then 1 else 0 }
    let s := emit_if (s.verbose ≠ 0)
      (.printf "[VERBOSE] Power %s printer...\n" [.str (if on_ ≠ 0 then "on" else "off")]) s
    let (r, s) := syscall env (.sys_ioctl fd h.NPIOCPOP op) s
    let ret := r.ret
    if ret = -1 then
      let s := explain_errno h env "ioctl(NPSETPOWER)" s
      let (_, s) := syscall env (.sys_close fd) s
      (-1, s)
    else
      let (_, s) := syscall env (.sys_close fd) s
      (0, s)

/-- The function `reset_printer` (lines 136-141). -/
def reset_printer (h : Hdr) (env : Env) (s : St) : Int × St :=
  let s := enter .reset_printer s
  let (r, s) := set_power h env 0 s
  if r < 0 then (-1, s)
  else
    let (_, s) := syscall env (.sys_sleep 1) s
    set_power h env 1 s

/-- The function `set_resolution` (lines 144-168). -/
def set_resolution (h : Hdr) (env : Env) (dpi : Int) (s : St) : Int × St :=
  let s := enter (.set_resolution dpi) s
  let (fd, s) := open_printer h env h.O_RDWR s
  if fd < 0 then (-1, s)
  else
    let op : Npop := { Npop.zero with np_op := h.NPSETRESOLUTION }
    let op : Npop := { op with np_resolution := if dpi = 400 then h.DPI400 else h.DPI300 }
    let s := emit_if (s.verbose ≠ 0)
      (.printf "[VERBOSE] Setting resolution to %d dpi\n" [.int dpi]) s
    let (r, s) := syscall env (.sys_ioctl fd h.NPIOCPOP op) s
    if r.ret = -1 then
      let s := explain_errno h env "ioctl(NPSETRESOLUTION)" s
      let (_, s) := syscall env (.sys_close fd) s
      (-1, s)
    else
      let (_, s) := syscall env (.sys_close fd) s
      (0, s)

/-- The function `set_margins` (lines 171-198). -/
def set_margins (h : Hdr) (env : Env) (left top width height : Int) (s : St) : Int × St :=
  let s := enter (.set_margins left top width height) s
  let (fd, s) := open_printer h env h.O_RDWR s
  if fd < 0 then (-1, s)
  else
    let op : Npop := { Npop.zero with np_op := h.NPSETMARGINS }
    let op : Npop :=
      { op with np_margins := { left := left, top := top, width := width, height := height } }
    let s := emit_if (s.verbose ≠ 0)
      (.printf "[VERBOSE] Setting margins l=%d t=%d w=%d h=%d\n" [.int left, .int top, .int width, .int height]) s
    let (r, s) := syscall env (.sys_ioctl fd h.NPIOCPOP op) s
    if r.ret = -1 then
      let s := explain_errno h env "ioctl(NPSETMARGINS)" s
      let (_, s) := syscall env (.sys_close fd) s
      (-1, s)
    else
      let (_, s) := syscall env (.sys_close fd) s
      (0, s)

/-- The table `sizes` of `query_status` (line 208). -/
def sizes : List String := ["No cassette", "A4", "Letter", "B5", "Legal"]

/-- The choice of `name` in `query_status` (lines 256-259); `none` is an access to
`sizes` outside the table. -/
def paper_name (code : Int) : Option String :=
  if 0 ≤ code ∧ code ≤ 4 then sizes[code.toNat]? else some "Unknown"

/-- Lines 217-248 of `query_status`: the report of the status reply `op`. -/
def query_status_report (h : Hdr) (op : Npop) (verbose_flag : Int) (s : St) : St :=
  let s := emit (.printf "Printer status:\n" []) s
  let s := emit_if (op.np_status.flags = 0) (.printf "  - Ready (no errors)\n" []) s
  let s := emit_if (op.np_status.flags &&& h.NPPAPERDELIVERY ≠ 0)
    (.printf "  - Printing (paper in path)\n" []) s
  let s := emit_if (op.np_status.flags &&& h.NPDATARETRANS ≠ 0)
    (.printf "  - Data retransmit requested (pages=%u)\n" [.nat op.np_status.retrans]) s
  let s := emit_if (op.np_status.flags &&& h.NPCOLD ≠ 0)
    (.printf "  - Warming up (fixing assembly not hot)\n" []) s
  let s := emit_if (op.np_status.flags &&& h.NPNOCARTRIDGE ≠ 0) (.printf "  - No cartridge\n" []) s
  let s := emit_if (op.np_status.flags &&& h.NPNOPAPER ≠ 0) (.printf "  - No paper\n" []) s
  let s := emit_if (op.np_status.flags &&& h.NPPAPERJAM ≠ 0) (.printf "  - Paper jam\n" []) s
  let s := emit_if (op.np_status.flags &&& h.NPDOOROPEN ≠ 0) (.printf "  - Door open\n" []) s
  let s := emit_if (op.np_status.flags &&& h.NPNOTONER ≠ 0) (.printf "  - Toner low\n" []) s
  let s := emit_if (op.np_status.flags &&& h.NPHARDWAREBAD ≠ 0)
    (.printf "  - Hardware failure\n" []) s
  let s := emit_if (op.np_status.flags &&& h.NPMANUALFEED ≠ 0)
    (.printf "  - Manual feed selected\n" []) s
  let s := emit_if (op.np_status.flags &&& h.NPFUSERBAD ≠ 0)
    (.printf "  - Fixing assembly malfunction\n" []) s
  let s := emit_if (op.np_status.flags &&& h.NPLASERBAD ≠ 0)
    (.printf "  - Laser/beam detect problem\n" []) s
  let s := emit_if (op.np_status.flags &&& h.NPMOTORBAD ≠ 0)
    (.printf "  - Scanning motor malfunction\n" []) s
  let s := emit_if (verbose_flag ≠ 0) (.printf "  [Raw flags=0x%08x]\n" [.nat op.np_status.flags]) s
  s

/-- The function `query_status` (lines 201-262); its lines 217-248 are
`query_status_report`. -/
def query_status (h : Hdr) (env : Env) (fd : Int) (verbose_flag : Int) (s : St) : Option St :=
  let s := enter (.query_status fd verbose_flag) s
  let op : Npop := { Npop.zero with np_op := h.NPGETSTATUS }
  let (r, s) := syscall env (.sys_ioctl fd h.NPIOCPOP op) s
  if r.ret < 0 then
    some (explain_errno h env "ioctl(NPGETSTATUS)" s)
  else
    let op := r.op
    let s := query_status_report h op verbose_flag s
    let op : Npop := { Npop.zero with np_op := h.NPGETPAPERSIZE }
    let (r, s) := syscall env (.sys_ioctl fd h.NPIOCPOP op) s
    if r.ret < 0 then
      some (explain_errno h env "ioctl(NPGETPAPERSIZE)" s)
    else
      let code := r.op.np_size
      match paper_name code with
      | none => none
      | some name =>
        some (emit (.printf "Paper size: %s (code %d)\n" [.str name, .int code]) s)

/-- The function `print_file` (lines 265-286).  The command is written by `sprintf`
into `char cmd[512]`: four bytes of `lpr `, the bytes of `path` and the final zero
byte; a longer command overflows the buffer. -/
def print_file (env : Env) (path : String) (s : St) : Option (Int × St) :=
  let s := enter (.print_file path) s
  let s := emit_if (s.verbose ≠ 0) (.printf "[VERBOSE] Sending %s to lpr...\n" [.str path]) s
  if 512 < 4 + path.utf8ByteSize + 1 then none
  else
    let cmd := "lpr " ++ path
    let (r, s) := syscall env (.sys_system cmd) s
    let ret := r.ret
    if ret ≠ 0 then
      let s := emit (.fprintf_stderr "Failed to print %s via lpr (exit code %d)\n"
        [.str path, .int ret]) s
      some (-1, s)
    else
      let s := emit_if (s.verbose ≠ 0) (.printf "[VERBOSE] lpr finished successfully.\n" []) s
      some (0, s)

/-- The function `demo_page` of `npctl.c` (lines 289-322), the one `main` calls.
A null result of `fdopen` is the reply `0`. -/
def demo_page (env : Env) (s : St) : Option (Int × St) :=
  let s := enter .demo_page s
  let (r, s) := syscall env (.sys_mkstemp "/tmp/npdemoXXXXXX") s
  let tmp := r.name
  let fd := r.ret
  if fd < 0 then
    some (-1, emit (.perror "mkstemp" s.errno) s)
  else
    let (r, s) := syscall env (.sys_fdopen fd "w") s
    if r.ret = 0 then
      let s := emit (.perror "fdopen" s.errno) s
      let (_, s) := syscall env (.sys_close fd) s
      some (-1, s)
    else
      let s := emit (.fprintf_file
        ("%%!PS-Adobe-2.0\n" ++
         "%%%%Title: npctl demo\n" ++
         "/Courier findfont 18 scalefont setfont\n" ++
         "72 720 moveto (NeXT Laser Printer Demo Page) show\n" ++
         "72 700 moveto (Generated by npctl) show\n" ++
         "newpath 100 500 moveto 300 500 lineto 300 700 lineto 100 700 lineto closepath stroke\n" ++
         "showpage\n") []) s
      let (_, s) := syscall env .sys_fclose s
      let s := emit_if (s.verbose ≠ 0) (.printf "[VERBOSE] Printing demo page...\n" []) s
      match print_file env tmp s with
      | none => none
      | some (_, s) =>
        let (_, s) := syscall env (.sys_unlink tmp) s
        some (0, s)

/-- Lines 349-386 of `main`: the dispatch on the command `cmd = argv[argi]`, in the
state `s` that the first part of `main` leaves. -/
def main_dispatch (h : Hdr) (env : Env) (argv : List String) (argi : Nat) (cmd : String)
    (s : St) : Option (Int × St) :=
  let argc := argv.length
  if cmd = "on" then
    let (r, s) := set_power h env 1 s
    some (if r ≠ 0 then 2 else 0, s)
  else if cmd = "off" then
    let (r, s) := set_power h env 0 s
    some (if r ≠ 0 then 3 else 0, s)
  else if cmd = "reset" then
    let (r, s) := reset_printer h env s
    some (if r ≠ 0 then 8 else 0, s)
  else if cmd = "status" then do
    let (fd, s) := open_printer h env h.O_RDWR s
    if fd < 0 then some (4, s)
    else do
      let s ← query_status h env fd s.verbose s
      let (_, s) := syscall env (.sys_close fd) s
      some (0, s)
  else if cmd = "setdpi" then do
    if argc ≤ argi + 1 then do
      let p ← argv[0]?
      some (1, usage p s)
    else do
      let a ← argv[argi + 1]?
      let dpi := env.atoi a
      if dpi ≠ 300 ∧ dpi ≠ 400 then
        some (1, emit (.fprintf_stderr "Only 300 and 400 DPI supported.\n" []) s)
      else
        let (r, s) := set_resolution h env dpi s
        some (if r ≠ 0 then 5 else 0, s)
  else if cmd = "setmargins" then do
    if argc ≤ argi + 4 then do
      let p ← argv[0]?
      some (1, usage p s)
    else do
      let left := env.atoi (← argv[argi + 1]?)
      let top := env.atoi (← argv[argi + 2]?)
      let width := env.atoi (← argv[argi + 3]?)
      let height := env.atoi (← argv[argi + 4]?)
      let (r, s) := set_margins h env left top width height s
      some (if r ≠ 0 then 6 else 0, s)
  else if cmd = "print" then do
    if argc ≤ argi + 1 then do
      let p ← argv[0]?
      some (1, usage p s)
    else do
      let path ← argv[argi + 1]?
      let (r, s) ← print_file env path s
      some (if r ≠ 0 then 7 else 0, s)
  else if cmd = "demo" then do
    let (r, s) ← demo_page env s
    some (if r ≠ 0 then 9 else 0, s)
  else do
    let p ← argv[0]?
    some (1, usage p s)

/-- The function `main` (lines 325-387); its lines 349-386 are `main_dispatch`.
`argc` is the length of `argv`; `strcmp(a, b) == 0` is equality of strings; reading
`argv[i]` with `argc ≤ i` is undefined. -/
def main (h : Hdr) (env : Env) (argv : List String) : Option (Int × St) :=
  let argc := argv.length
  let s := St.init
  let argi := 1
  if argc < 2 then do
    let p ← argv[0]?
    some (1, usage p s)
  else do
    let a1 ← argv[1]?
    if a1 = "-v" ∧ argc < 3 then do
      let p ← argv[0]?
      some (1, usage p { s with verbose := 1 })
    else do
      let s := if a1 = "-v" then { s with verbose := 1 } else s
      let argi := if a1 = "-v" then argi + 1 else argi
      let cmd ← argv[argi]?
      let (r, s) := syscall env .sys_geteuid s
      let s := emit_if (r.ret ≠ 0)
        (.fprintf_stderr "Warning: you are not root - some ioctls may fail.\n" []) s
      main_dispatch h env argv argi cmd s

/-! ## Vocabulary of the statements -/

/-- The thirteen condition flags that `query_status` tests. -/
inductive Flag where
  | NPPAPERDELIVERY
  | NPDATARETRANS
  | NPCOLD
  | NPNOCARTRIDGE
  | NPNOPAPER
  | NPPAPERJAM
  | NPDOOROPEN
  | NPNOTONER
  | NPHARDWAREBAD
  | NPMANUALFEED
  | NPFUSERBAD
  | NPLASERBAD
  | NPMOTORBAD
deriving DecidableEq, Repr, Fintype

/-- The header constant of a flag. -/
def Flag.mask (h : Hdr) : Flag → Nat
  | .NPPAPERDELIVERY => h.NPPAPERDELIVERY
  | .NPDATARETRANS => h.NPDATARETRANS
  | .NPCOLD => h.NPCOLD
  | .NPNOCARTRIDGE => h.NPNOCARTRIDGE
  | .NPNOPAPER => h.NPNOPAPER
  | .NPPAPERJAM => h.NPPAPERJAM
  | .NPDOOROPEN => h.NPDOOROPEN
  | .NPNOTONER => h.NPNOTONER
  | .NPHARDWAREBAD => h.NPHARDWAREBAD
  | .NPMANUALFEED => h.NPMANUALFEED
  | .NPFUSERBAD => h.NPFUSERBAD
  | .NPLASERBAD => h.NPLASERBAD
  | .NPMOTORBAD => h.NPMOTORBAD

/-- The line `query_status` prints for a flag; `retrans` is the member
`np_status.retrans` of the reply, printed with the retransmit line. -/
def Flag.line (retrans : Nat) : Flag → Event
  | .NPPAPERDELIVERY => .printf "  - Printing (paper in path)\n" []
  | .NPDATARETRANS => .printf "  - Data retransmit requested (pages=%u)\n" [.nat retrans]
  | .NPCOLD => .printf "  - Warming up (fixing assembly not hot)\n" []
  | .NPNOCARTRIDGE => .printf "  - No cartridge\n" []
  | .NPNOPAPER => .printf "  - No paper\n" []
  | .NPPAPERJAM => .printf "  - Paper jam\n" []
  | .NPDOOROPEN => .printf "  - Door open\n" []
  | .NPNOTONER => .printf "  - Toner low\n" []
  | .NPHARDWAREBAD => .printf "  - Hardware failure\n" []
  | .NPMANUALFEED => .printf "  - Manual feed selected\n" []
  | .NPFUSERBAD => .printf "  - Fixing assembly malfunction\n" []
  | .NPLASERBAD => .printf "  - Laser/beam detect problem\n" []
  | .NPMOTORBAD => .printf "  - Scanning motor malfunction\n" []

/-- The line that reports a printer without any condition. -/
def readyLine : Event := .printf "  - Ready (no errors)\n" []

/-- The events a run added to the trace. -/
def newEvents (s s' : St) : List Event := s'.trace.drop s.trace.length

/-- The entries a run added to the ghost log of calls. -/
def newCalls (s s' : St) : List Call := s'.calls.drop s.calls.length

/-- The request `query_status` issues to read the status. -/
def statusRequest (h : Hdr) (fd : Int) : Event :=
  .sys_ioctl fd h.NPIOCPOP { Npop.zero with np_op := h.NPGETSTATUS }

/-- The request `query_status` issues to read the paper size. -/
def paperRequest (h : Hdr) (fd : Int) : Event :=
  .sys_ioctl fd h.NPIOCPOP { Npop.zero with np_op := h.NPGETPAPERSIZE }

/-- The reply to the status request of `query_status h env fd verbose_flag s`. -/
def statusReply (h : Hdr) (env : Env) (fd : Int) (s : St) : Reply :=
  env.reply (s.trace ++ [statusRequest h fd])

/-- The state in which `query_status h env fd verbose_flag s` issues the paper-size
request, after a status call that succeeded. -/
def reported (h : Hdr) (env : Env) (fd : Int) (verbose_flag : Int) (s : St) : St :=
  query_status_report h (statusReply h env fd s).op verbose_flag
    (syscall env (statusRequest h fd) (enter (.query_status fd verbose_flag) s)).2

/-- The reply to the paper-size request of `query_status h env fd verbose_flag s`. -/
def paperReply (h : Hdr) (env : Env) (fd : Int) (verbose_flag : Int) (s : St) : Reply :=
  env.reply ((reported h env fd verbose_flag s).trace ++ [paperRequest h fd])

/-- The mask that has the bits of the flags of `set` on top of the bits of `extra`. -/
def maskOf (k : Flag → Nat) (set : List Flag) (extra : Nat) : Nat :=
  set.foldl (fun m f => m ||| 2 ^ k f) extra

/-- The formats of the lines of `query_status` that name no condition flag: the
heading, the ready line, the raw mask and the paper size. -/
def plainFormats : List String :=
  ["Printer status:\n", "  - Ready (no errors)\n", "  [Raw flags=0x%08x]\n",
   "Paper size: %s (code %d)\n"]

/-- The lines `query_status_report` prints for the status reply `op`. -/
def reportLines (h : Hdr) (op : Npop) (verbose_flag : Int) : List Event :=
  (query_status_report h op verbose_flag St.init).trace

/-- The kinds of error of the specification (its section 4.4). -/
inductive ErrKind where
  | MarginsNotSet
  | DeviceError
  | UnsupportedOperation
  | IoFailure
  | DeviceBusy
  | SystemFailure (text : String)
deriving DecidableEq, Repr

/-- The line `explain_errno` writes for a kind of error of the operation `msg`. -/
def ErrKind.message (msg : String) : ErrKind → Event
  | .MarginsNotSet => .fprintf_stderr "%s: Margins not set before write\n" [.str msg]
  | .DeviceError => .fprintf_stderr "%s: Printer is in error state\n" [.str msg]
  | .UnsupportedOperation => .fprintf_stderr "%s: Unknown command or device\n" [.str msg]
  | .IoFailure => .fprintf_stderr "%s: I/O error talking to printer\n" [.str msg]
  | .DeviceBusy => .fprintf_stderr "%s: Printer already in use\n" [.str msg]
  | .SystemFailure text => .fprintf_stderr "%s: %s\n" [.str msg, .str text]

/-- The classifier in the words of the specification: the table of its section 4.4,
row by row, with the errno constants the rows stand for. -/
def classify (h : Hdr) (env : Env) (errno : Int) : ErrKind :=
  if errno = h.ENOINIT then .MarginsNotSet
  else if errno = h.EDEVERR then .DeviceError
  else if errno = h.ENXIO then .UnsupportedOperation
  else if errno = h.EIO then .IoFailure
  else if errno = h.EBUSY then .DeviceBusy
  else .SystemFailure (env.strerror errno)

/-- An errno value is recognized when `explain_errno` gives it a line of its own
instead of the message text of the system. -/
def recognized (h : Hdr) (env : Env) (errno : Int) : Prop :=
  ∀ msg : String,
    (explain_errno h env msg { St.init with errno := errno }).trace ≠
      [.fprintf_stderr "%s: %s\n" [.str msg, .str (env.strerror errno)]]

/-- The call `open(PRINTER_DEV, O_RDWR, 0)` that every operation starts with. -/
def openRequest (h : Hdr) : Event := .sys_open PRINTER_DEV h.O_RDWR 0

/-- The reply to the `open` of an operation run from `s`. -/
def openReply (h : Hdr) (env : Env) (s : St) : Reply :=
  env.reply (s.trace ++ [openRequest h])

/-- The line `open_printer` prints under `-v`. -/
def openedNote : Event :=
  .printf "[VERBOSE] Opened printer device %s\n" [.str PRINTER_DEV]

/-- The shape `set_power`, `set_resolution` and `set_margins` share: open the device,
print `note` under `-v`, issue the request `op`, explain a failure under the name `msg`,
close the device. -/
def control (h : Hdr) (env : Env) (call : Call) (op : Npop) (note : Event) (msg : String)
    (s : St) : Int × St :=
  let s := enter call s
  let (fd, s) := open_printer h env h.O_RDWR s
  if fd < 0 then (-1, s)
  else
    let s := emit_if (s.verbose ≠ 0) note s
    let (r, s) := syscall env (.sys_ioctl fd h.NPIOCPOP op) s
    if r.ret = -1 then
      let s := explain_errno h env msg s
      let (_, s) := syscall env (.sys_close fd) s
      (-1, s)
    else
      let (_, s) := syscall env (.sys_close fd) s
      (0, s)

/-- The lines an operation prints under `-v` between its `open` and its request. -/
def controlNotes (note : Event) (s : St) : List Event :=
  (if s.verbose ≠ 0 then [openedNote] else []) ++ (if s.verbose ≠ 0 then [note] else [])

/-- The control call of an operation run from `s` with the request `op`. -/
def controlRequest (h : Hdr) (env : Env) (op : Npop) (s : St) : Event :=
  .sys_ioctl (openReply h env s).ret h.NPIOCPOP op

/-- The reply to the control call of an operation run from `s`. -/
def controlReply (h : Hdr) (env : Env) (op : Npop) (note : Event) (s : St) : Reply :=
  env.reply (s.trace ++ openRequest h :: controlNotes note s ++ [controlRequest h env op s])

/-- The request of `set_power`. -/
def powerOp (h : Hdr) (on_ : Int) : Npop :=
  { Npop.zero with np_op := h.NPSETPOWER, np_power := if on_ ≠ 0 then 1 else 0 }

/-- The line `set_power` prints under `-v`. -/
def powerNote (on_ : Int) : Event :=
  .printf "[VERBOSE] Power %s printer...\n" [.str (if on_ ≠ 0 then "on" else "off")]

/-- The request of `set_resolution`. -/
def resolutionOp (h : Hdr) (dpi : Int) : Npop :=
  { Npop.zero with
    np_op := h.NPSETRESOLUTION, np_resolution := if dpi = 400 then h.DPI400 else h.DPI300 }

/-- The line `set_resolution` prints under `-v`. -/
def resolutionNote (dpi : Int) : Event :=
  .printf "[VERBOSE] Setting resolution to %d dpi\n" [.int dpi]

/-- The request of `set_margins`. -/
def marginsOp (h : Hdr) (left top width height : Int) : Npop :=
  { Npop.zero with
    np_op := h.NPSETMARGINS,
    np_margins := { left := left, top := top, width := width, height := height } }

/-- The line `set_margins` prints under `-v`. -/
def marginsNote (left top width height : Int) : Event :=
  .printf "[VERBOSE] Setting margins l=%d t=%d w=%d h=%d\n"
    [.int left, .int top, .int width, .int height]

/-- Whether an event is an `open`. -/
def Event.isOpen : Event → Bool
  | .sys_open _ _ _ => true
  | _ => false

/-- Whether an event is a `close`. -/
def Event.isClose : Event → Bool
  | .sys_close _ => true
  | _ => false

/-- Whether an event is a control call. -/
def Event.isIoctl : Event → Bool
  | .sys_ioctl _ _ _ => true
  | _ => false

/-- Whether an event is a delay. -/
def Event.isSleep : Event → Bool
  | .sys_sleep _ => true
  | _ => false

/-- Whether an event is a line of output. -/
def Event.isOutput : Event → Bool
  | .printf _ _ => true
  | .fprintf_stderr _ _ => true
  | _ => false

/-- The handle discipline of one operation. `before` is the trace when the operation
starts and `after` the trace when it ends. The operation first opens the device. If
the open failed, nothing that follows is an open, a close or a control call. If it
succeeded with the handle `fd`, the last event is the close of `fd` and nothing in
between is an open or a close, so the handle is closed once and no control call comes
after the close. -/
def ClosesOnce (h : Hdr) (env : Env) (before after : List Event) : Prop :=
  if (env.reply (before ++ [openRequest h])).ret < 0 then
    ∃ out, after = before ++ openRequest h :: out ∧
      ∀ e ∈ out, e.isOpen = false ∧ e.isClose = false ∧ e.isIoctl = false
  else
    ∃ mid, after = before ++ openRequest h :: mid ++
        [.sys_close (env.reply (before ++ [openRequest h])).ret] ∧
      ∀ e ∈ mid, e.isOpen = false ∧ e.isClose = false

/-- The argument vector `prog [-v] cmd rest...`. -/
def commandLine (prog : String) (v : Bool) (cmd : String) (rest : List String) : List String :=
  prog :: ((if v then ["-v"] else []) ++ cmd :: rest)

/-- The warning `main` prints when the process is not run by root. -/
def rootWarning : Event :=
  .fprintf_stderr "Warning: you are not root - some ioctls may fail.\n" []

/-- The state in which `main` dispatches on the command (after its lines 331-347):
`verbose` is set by `-v`, `geteuid` was called and the warning printed if it applies. -/
def prologue (env : Env) (v : Bool) : St :=
  emit_if ((env.reply [.sys_geteuid]).ret ≠ 0) rootWarning
    (syscall env .sys_geteuid { St.init with verbose := if v then 1 else 0 }).2

/-- Whether an entry of the call log is a call of `set_power`. -/
def Call.isSetPower : Call → Bool
  | .set_power _ => true
  | _ => false

/-- The exit code `main` makes of the result of a command: `r ? code : 0`. -/
def exitWith (code : Int) (p : Int × St) : Int × St :=
  (if p.1 = 0 then 0 else code, p.2)

/-- The commands of `main`. -/
def commands : List String :=
  ["on", "off", "reset", "status", "setdpi", "setmargins", "print", "demo"]

/-- The line `main` prints for a resolution it does not support. -/
def unsupportedDpi : Event := .fprintf_stderr "Only 300 and 400 DPI supported.\n" []

/-- The spooling call of `print_file` for `path`. -/
def spoolRequest (path : String) : Event := .sys_system ("lpr " ++ path)

/-- The reply to the spooling call of `print_file env path s`. -/
def spoolReply (env : Env) (path : String) (s : St) : Reply :=
  env.reply (s.trace ++
    (if s.verbose ≠ 0 then [Event.printf "[VERBOSE] Sending %s to lpr...\n" [.str path]]
      else []) ++ [spoolRequest path])

/-- The call log `cs` holds calls of `set_resolution` with 300 or 400 only. -/
def Supported (cs : List Call) : Prop :=
  ∀ dpi : Int, Call.set_resolution dpi ∈ cs → dpi = 300 ∨ dpi = 400

/-! ## A sample header and scripted environments

The values of the header constants are not in the repository.  `sampleHdr` is one
assignment of them, used to run the model on concrete inputs. -/

/-- A sample assignment of the header constants. -/
def sampleHdr : Hdr :=
  { NPSETPOWER := 0, NPSETMARGINS := 1, NPSETRESOLUTION := 2, NPGETSTATUS := 3,
    NPGETPAPERSIZE := 5, NPIOCPOP := 100, DPI300 := 0, DPI400 := 1,
    NPPAPERDELIVERY := 1, NPDATARETRANS := 2, NPCOLD := 4, NPNOCARTRIDGE := 8,
    NPNOPAPER := 16, NPPAPERJAM := 32, NPDOOROPEN := 64, NPNOTONER := 128,
    NPHARDWAREBAD := 256, NPMANUALFEED := 512, NPFUSERBAD := 1024, NPLASERBAD := 2048,
    NPMOTORBAD := 4096, ENOINIT := 66, EDEVERR := 83, ENXIO := 6, EIO := 5, EBUSY := 16,
    O_RDWR := 2 }

/-- The bit index of each flag in `sampleHdr`. -/
def sampleBit : Flag → Nat
  | .NPPAPERDELIVERY => 0
  | .NPDATARETRANS => 1
  | .NPCOLD => 2
  | .NPNOCARTRIDGE => 3
  | .NPNOPAPER => 4
  | .NPPAPERJAM => 5
  | .NPDOOROPEN => 6
  | .NPNOTONER => 7
  | .NPHARDWAREBAD => 8
  | .NPMANUALFEED => 9
  | .NPFUSERBAD => 10
  | .NPLASERBAD => 11
  | .NPMOTORBAD => 12

/-- The events the environment replies to. -/
def Event.isCall : Event → Bool
  | .printf _ _ => false
  | .fprintf_stderr _ _ => false
  | .fprintf_file _ _ => false
  | .perror _ _ => false
  | _ => true

/-- A reply that reports success and carries nothing. -/
def okReply : Reply := { ret := 0, errno := 0, op := Npop.zero, name := "" }

/-- The value of a run of decimal digits. -/
def digitsValue : List Char → Int → Int
  | [], acc => acc
  | c :: cs, acc => if c.isDigit then digitsValue cs (acc * 10 + (c.toNat - 48)) else acc

/-- A sample `atoi`: an optional minus sign and decimal digits. -/
def sampleAtoi (a : String) : Int :=
  match a.data with
  | '-' :: cs => - digitsValue cs 0
  | cs => digitsValue cs 0

/-- The environment that answers its n-th call with the n-th reply of `rs`, and with
`okReply` when `rs` is used up. -/
def scripted (rs : List Reply) : Env :=
  { reply := fun t => rs.getD ((t.filter Event.isCall).length - 1) okReply
    strerror := fun e => "Error " ++ toString e
    atoi := sampleAtoi }

/-- A device that reports no paper and an open door together with a bit that belongs
to no flag, and has a Letter cassette. -/
def envDoorOpen : Env :=
  scripted
    [{ okReply with
        op := { Npop.zero with np_status := { flags := 16 + 64 + 2 ^ 20, retrans := 0 } } },
     { okReply with op := { Npop.zero with np_size := 2 } }]

/-- A device whose status mask is zero and whose paper code is 99. -/
def envReady : Env :=
  scripted [okReply, { okReply with op := { Npop.zero with np_size := 99 } }]

/-- A device that opens and then fails the first control call with EIO. -/
def envControlFails : Env :=
  scripted [okReply, { okReply with ret := -1, errno := 5 }]

@[simp] theorem emit_trace (e : Event) (s : St) : (emit e s).trace = s.trace ++ [e] := rfl
@[simp] theorem emit_errno (e : Event) (s : St) : (emit e s).errno = s.errno := rfl
@[simp] theorem emit_verbose (e : Event) (s : St) : (emit e s).verbose = s.verbose := rfl
@[simp] theorem emit_calls (e : Event) (s : St) : (emit e s).calls = s.calls := rfl

@[simp] theorem emit_if_trace (c : Prop) [Decidable c] (e : Event) (s : St) :
    (emit_if c e s).trace = s.trace ++ (if c then [e] else []) := by
  unfold emit_if; split <;> simp

@[simp] theorem emit_if_errno (c : Prop) [Decidable c] (e : Event) (s : St) :
    (emit_if c e s).errno = s.errno := by
  unfold emit_if; split <;> simp

@[simp] theorem emit_if_verbose (c : Prop) [Decidable c] (e : Event) (s : St) :
    (emit_if c e s).verbose = s.verbose := by
  unfold emit_if; split <;> simp

@[simp] theorem emit_if_calls (c : Prop) [Decidable c] (e : Event) (s : St) :
    (emit_if c e s).calls = s.calls := by
  unfold emit_if; split <;> simp

@[simp] theorem enter_trace (c : Call) (s : St) : (enter c s).trace = s.trace := rfl
@[simp] theorem enter_errno (c : Call) (s : St) : (enter c s).errno = s.errno := rfl
@[simp] theorem enter_verbose (c : Call) (s : St) : (enter c s).verbose = s.verbose := rfl
@[simp] theorem enter_calls (c : Call) (s : St) : (enter c s).calls = s.calls ++ [c] := rfl

@[simp] theorem syscall_fst (env : Env) (e : Event) (s : St) :
    (syscall env e s).1 = env.reply (s.trace ++ [e]) := rfl
@[simp] theorem syscall_trace (env : Env) (e : Event) (s : St) :
    (syscall env e s).2.trace = s.trace ++ [e] := rfl
@[simp] theorem syscall_errno (env : Env) (e : Event) (s : St) :
    (syscall env e s).2.errno = (env.reply (s.trace ++ [e])).errno := rfl
@[simp] theorem syscall_verbose (env : Env) (e : Event) (s : St) :
    (syscall env e s).2.verbose = s.verbose := rfl
@[simp] theorem syscall_calls (env : Env) (e : Event) (s : St) :
    (syscall env e s).2.calls = s.calls := rfl

theorem newEvents_of_append (s s' : St) (evs : List Event) (hs : s'.trace = s.trace ++ evs) :
    newEvents s s' = evs := by
  simp [newEvents, hs]

theorem newCalls_of_append (s s' : St) (cs : List Call) (hs : s'.calls = s.calls ++ cs) :
    newCalls s s' = cs := by
  simp [newCalls, hs]

theorem mem_ite_singleton {α : Type} (c : Prop) [Decidable c] (a b : α) :
    a ∈ (if c then [b] else []) ↔ c ∧ a = b := by
  split <;> simp_all

/-! ## The paper-size table -/

theorem paper_name_eq (code : Int) :
    paper_name code = some
      (if code = 0 then "No cassette" else if code = 1 then "A4"
       else if code = 2 then "Letter" else if code = 3 then "B5"
       else if code = 4 then "Legal" else "Unknown") := by
  unfold paper_name
  by_cases hc : 0 ≤ code ∧ code ≤ 4
  · obtain ⟨h0, h4⟩ := hc
    have : code = 0 ∨ code = 1 ∨ code = 2 ∨ code = 3 ∨ code = 4 := by omega
    rcases this with rfl | rfl | rfl | rfl | rfl <;> simp [sizes]
  · rw [if_neg hc]
    have h0 : code ≠ 0 := by omega
    have h1 : code ≠ 1 := by omega
    have h2 : code ≠ 2 := by omega
    have h3 : code ≠ 3 := by omega
    have h4 : code ≠ 4 := by omega
    simp [h0, h1, h2, h3, h4]

/-! ## Bit tests -/

theorem and_two_pow_ne_zero (x k : Nat) : x &&& 2 ^ k ≠ 0 ↔ x.testBit k = true := by
  constructor
  · intro hne
    obtain ⟨i, hi⟩ := Nat.ne_zero_implies_bit_true hne
    rw [Nat.testBit_and, Nat.testBit_two_pow] at hi
    simp only [Bool.and_eq_true, decide_eq_true_eq] at hi
    obtain ⟨hx, rfl⟩ := hi
    exact hx
  · intro hx hzero
    have hb : (x &&& 2 ^ k).testBit k = true := by
      rw [Nat.testBit_and, Nat.testBit_two_pow_self, hx]; rfl
    rw [hzero] at hb
    simp at hb

theorem testBit_maskOf (k : Flag → Nat) (set : List Flag) (extra i : Nat) :
    (maskOf k set extra).testBit i = true ↔
      extra.testBit i = true ∨ ∃ f ∈ set, k f = i := by
  unfold maskOf
  induction set generalizing extra with
  | nil => simp
  | cons a rest ih =>
    rw [List.foldl_cons, ih]
    simp only [Nat.testBit_or, Nat.testBit_two_pow, Bool.or_eq_true, decide_eq_true_eq,
      List.mem_cons, exists_eq_or_imp]
    tauto

/-! ## The status report -/

theorem query_status_report_trace (h : Hdr) (op : Npop) (v : Int) (s : St) :
    (query_status_report h op v s).trace =
      s.trace ++ [Event.printf "Printer status:\n" []]
        ++ (if op.np_status.flags = 0 then [readyLine] else [])
        ++ (if op.np_status.flags &&& h.NPPAPERDELIVERY ≠ 0
              then [Flag.line op.np_status.retrans .NPPAPERDELIVERY] else [])
        ++ (if op.np_status.flags &&& h.NPDATARETRANS ≠ 0
              then [Flag.line op.np_status.retrans .NPDATARETRANS] else [])
        ++ (if op.np_status.flags &&& h.NPCOLD ≠ 0
              then [Flag.line op.np_status.retrans .NPCOLD] else [])
        ++ (if op.np_status.flags &&& h.NPNOCARTRIDGE ≠ 0
              then [Flag.line op.np_status.retrans .NPNOCARTRIDGE] else [])
        ++ (if op.np_status.flags &&& h.NPNOPAPER ≠ 0
              then [Flag.line op.np_status.retrans .NPNOPAPER] else [])
        ++ (if op.np_status.flags &&& h.NPPAPERJAM ≠ 0
              then [Flag.line op.np_status.retrans .NPPAPERJAM] else [])
        ++ (if op.np_status.flags &&& h.NPDOOROPEN ≠ 0
              then [Flag.line op.np_status.retrans .NPDOOROPEN] else [])
        ++ (if op.np_status.flags &&& h.NPNOTONER ≠ 0
              then [Flag.line op.np_status.retrans .NPNOTONER] else [])
        ++ (if op.np_status.flags &&& h.NPHARDWAREBAD ≠ 0
              then [Flag.line op.np_status.retrans .NPHARDWAREBAD] else [])
        ++ (if op.np_status.flags &&& h.NPMANUALFEED ≠ 0
              then [Flag.line op.np_status.retrans .NPMANUALFEED] else [])
        ++ (if op.np_status.flags &&& h.NPFUSERBAD ≠ 0
              then [Flag.line op.np_status.retrans .NPFUSERBAD] else [])
        ++ (if op.np_status.flags &&& h.NPLASERBAD ≠ 0
              then [Flag.line op.np_status.retrans .NPLASERBAD] else [])
        ++ (if op.np_status.flags &&& h.NPMOTORBAD ≠ 0
              then [Flag.line op.np_status.retrans .NPMOTORBAD] else [])
        ++ (if v ≠ 0 then [Event.printf "  [Raw flags=0x%08x]\n" [.nat op.np_status.flags]]
              else []) := by
  simp only [query_status_report, emit_if_trace, emit_trace, Flag.line, readyLine,
    List.append_assoc]

theorem exists_flag (P : Flag → Prop) :
    (∃ f, P f) ↔
      P .NPPAPERDELIVERY ∨ P .NPDATARETRANS ∨ P .NPCOLD ∨ P .NPNOCARTRIDGE ∨ P .NPNOPAPER ∨
      P .NPPAPERJAM ∨ P .NPDOOROPEN ∨ P .NPNOTONER ∨ P .NPHARDWAREBAD ∨ P .NPMANUALFEED ∨
      P .NPFUSERBAD ∨ P .NPLASERBAD ∨ P .NPMOTORBAD := by
  constructor
  · rintro ⟨f, hf⟩
    cases f <;> simp [hf]
  · intro hP
    rcases hP with hP | hP | hP | hP | hP | hP | hP | hP | hP | hP | hP | hP | hP <;>
      exact ⟨_, hP⟩

theorem mem_query_status_report (h : Hdr) (op : Npop) (v : Int) (s : St) (e : Event) :
    e ∈ (query_status_report h op v s).trace ↔
      e ∈ s.trace ∨ e = Event.printf "Printer status:\n" [] ∨
      (op.np_status.flags = 0 ∧ e = readyLine) ∨
      (∃ f : Flag, op.np_status.flags &&& f.mask h ≠ 0 ∧ e = f.line op.np_status.retrans) ∨
      (v ≠ 0 ∧ e = Event.printf "  [Raw flags=0x%08x]\n" [.nat op.np_status.flags]) := by
  rw [query_status_report_trace]
  simp only [List.mem_append, mem_ite_singleton, List.mem_singleton, exists_flag, Flag.mask,
    or_assoc]

/-! ## The error line -/

theorem explain_errno_emits (h : Hdr) (env : Env) (msg : String) (s : St) :
    ∃ fmt args, explain_errno h env msg s =
      emit (.fprintf_stderr fmt (.str msg :: args)) (enter (.explain_errno msg) s) := by
  unfold explain_errno
  simp only [enter_errno]
  split_ifs
  · exact ⟨_, [], rfl⟩
  · exact ⟨_, [], rfl⟩
  · exact ⟨_, [], rfl⟩
  · exact ⟨_, [], rfl⟩
  · exact ⟨_, [], rfl⟩
  · exact ⟨_, [_], rfl⟩

/-! ## The shape of a status query -/

theorem query_status_eq (h : Hdr) (env : Env) (fd v : Int) (s : St) :
    query_status h env fd v s =
      if (statusReply h env fd s).ret < 0 then
        some (explain_errno h env "ioctl(NPGETSTATUS)"
          (syscall env (statusRequest h fd) (enter (.query_status fd v) s)).2)
      else if (paperReply h env fd v s).ret < 0 then
        some (explain_errno h env "ioctl(NPGETPAPERSIZE)"
          (syscall env (paperRequest h fd) (reported h env fd v s)).2)
      else
        some (emit (.printf "Paper size: %s (code %d)\n"
            [.str (if (paperReply h env fd v s).op.np_size = 0 then "No cassette"
                   else if (paperReply h env fd v s).op.np_size = 1 then "A4"
                   else if (paperReply h env fd v s).op.np_size = 2 then "Letter"
                   else if (paperReply h env fd v s).op.np_size = 3 then "B5"
                   else if (paperReply h env fd v s).op.np_size = 4 then "Legal"
                   else "Unknown"),
             .int (paperReply h env fd v s).op.np_size])
          (syscall env (paperRequest h fd) (reported h env fd v s)).2) := by
  unfold query_status
  simp only [paper_name_eq]
  rfl

theorem query_status_report_appends (h : Hdr) (op : Npop) (v : Int) (s : St) :
    (query_status_report h op v s).trace = s.trace ++ reportLines h op v := by
  rw [reportLines, query_status_report_trace, query_status_report_trace]
  simp [St.init]

theorem mem_reportLines (h : Hdr) (op : Npop) (v : Int) (e : Event) :
    e ∈ reportLines h op v ↔
      e = Event.printf "Printer status:\n" [] ∨
      (op.np_status.flags = 0 ∧ e = readyLine) ∨
      (∃ f : Flag, op.np_status.flags &&& f.mask h ≠ 0 ∧ e = f.line op.np_status.retrans) ∨
      (v ≠ 0 ∧ e = Event.printf "  [Raw flags=0x%08x]\n" [.nat op.np_status.flags]) := by
  rw [reportLines, mem_query_status_report]
  simp [St.init]

theorem reported_trace (h : Hdr) (env : Env) (fd v : Int) (s : St) :
    (reported h env fd v s).trace =
      s.trace ++ statusRequest h fd :: reportLines h (statusReply h env fd s).op v := by
  simp [reported, query_status_report_appends]

theorem query_status_ok (h : Hdr) (env : Env) (fd v : Int) (s : St)
    (hok : ¬ (statusReply h env fd s).ret < 0) :
    ∃ s' e, query_status h env fd v s = some s' ∧
      newEvents s s' = statusRequest h fd :: reportLines h (statusReply h env fd s).op v
        ++ [paperRequest h fd, e] ∧
      (((paperReply h env fd v s).ret < 0 ∧
          ∃ fmt args, e = .fprintf_stderr fmt (.str "ioctl(NPGETPAPERSIZE)" :: args)) ∨
       (¬ (paperReply h env fd v s).ret < 0 ∧
          ∃ name, paper_name (paperReply h env fd v s).op.np_size = some name ∧
            e = .printf "Paper size: %s (code %d)\n"
              [.str name, .int (paperReply h env fd v s).op.np_size])) := by
  rw [query_status_eq, if_neg hok]
  by_cases hp : (paperReply h env fd v s).ret < 0
  · rw [if_pos hp]
    obtain ⟨fmt, args, he⟩ :=
      explain_errno_emits h env "ioctl(NPGETPAPERSIZE)"
        (syscall env (paperRequest h fd) (reported h env fd v s)).2
    refine ⟨_, .fprintf_stderr fmt (.str "ioctl(NPGETPAPERSIZE)" :: args), rfl, ?_,
      Or.inl ⟨hp, fmt, args, rfl⟩⟩
    apply newEvents_of_append
    rw [he]
    simp [reported_trace]
  · rw [if_neg hp]
    refine ⟨_, _, rfl, ?_, Or.inr ⟨hp, _, paper_name_eq _, rfl⟩⟩
    apply newEvents_of_append
    simp [reported_trace]

theorem Flag.line_injective (r : Nat) : Function.Injective (Flag.line r) := by
  intro f g hfg
  cases f <;> cases g <;> first | rfl | (simp [Flag.line] at hfg)

theorem mem_newEvents_query_status_line (h : Hdr) (env : Env) (fd v : Int) (s s' : St)
    (e : Event) (f : Flag)
    (hnew : newEvents s s' = statusRequest h fd :: reportLines h (statusReply h env fd s).op v
        ++ [paperRequest h fd, e])
    (he : (∃ fmt args, e = .fprintf_stderr fmt args) ∨
          (∃ args, e = .printf "Paper size: %s (code %d)\n" args)) :
    f.line (statusReply h env fd s).op.np_status.retrans ∈ newEvents s s' ↔
      (statusReply h env fd s).op.np_status.flags &&& f.mask h ≠ 0 := by
  rw [hnew]
  simp only [List.cons_append, List.mem_cons, List.mem_append, mem_reportLines,
    List.mem_singleton, List.not_mem_nil, or_false]
  constructor
  · rintro (h1 | (h1 | h1 | ⟨g, hg, h1⟩ | h1) | h1 | h1)
    · cases f <;> simp [Flag.line, statusRequest] at h1
    · cases f <;> simp [Flag.line] at h1
    · cases f <;> simp [Flag.line, readyLine] at h1
    · rw [Flag.line_injective _ h1]; exact hg
    · cases f <;> simp [Flag.line] at h1
    · cases f <;> simp [Flag.line, paperRequest] at h1
    · rcases he with ⟨fmt, args, rfl⟩ | ⟨args, rfl⟩
      · cases f <;> simp [Flag.line] at h1
      · cases f <;> simp [Flag.line] at h1
  · intro hf
    exact Or.inr (Or.inl (Or.inr (Or.inr (Or.inl ⟨f, hf, rfl⟩))))

/-! ## Claims about the status report -/

/-- C1. After a status call that succeeded, the condition lines `query_status` prints
are those of the flags whose bit is set in the mask of the reply, the flag constants
being distinct single bits `2 ^ k f`: the line of a flag is printed exactly when its
bit is set; every other printed line is the heading, the ready line, the raw mask or
the paper size; and for a mask made of the bits of a set of flags and of bits that
belong to no flag, the lines printed are those of that set. -/
theorem query_status_reports_exactly_set_flags (h : Hdr) (env : Env) (fd v : Int) (s : St)
    (k : Flag → Nat) (hbit : ∀ f, f.mask h = 2 ^ k f) (hdist : Function.Injective k)
    (hok : ¬ (statusReply h env fd s).ret < 0) :
    ∃ s', query_status h env fd v s = some s' ∧
      (∀ f : Flag, f.line (statusReply h env fd s).op.np_status.retrans ∈ newEvents s s' ↔
          (statusReply h env fd s).op.np_status.flags.testBit (k f) = true) ∧
      (∀ fmt args, Event.printf fmt args ∈ newEvents s s' →
          fmt ∈ plainFormats ∨
          ∃ f : Flag, Event.printf fmt args =
              f.line (statusReply h env fd s).op.np_status.retrans ∧
            (statusReply h env fd s).op.np_status.flags.testBit (k f) = true) ∧
      (∀ set extra, (∀ f, extra.testBit (k f) = false) →
          (statusReply h env fd s).op.np_status.flags = maskOf k set extra →
          ∀ f : Flag, f.line (statusReply h env fd s).op.np_status.retrans ∈ newEvents s s' ↔
            f ∈ set) := by
  obtain ⟨s', e, hs', hnew, he⟩ := query_status_ok h env fd v s hok
  have he' : (∃ fmt args, e = .fprintf_stderr fmt args) ∨
      (∃ args, e = .printf "Paper size: %s (code %d)\n" args) := by
    rcases he with ⟨-, fmt, args, rfl⟩ | ⟨-, name, -, rfl⟩
    · exact Or.inl ⟨_, _, rfl⟩
    · exact Or.inr ⟨_, rfl⟩
  have hline : ∀ f : Flag,
      f.line (statusReply h env fd s).op.np_status.retrans ∈ newEvents s s' ↔
        (statusReply h env fd s).op.np_status.flags.testBit (k f) = true := by
    intro f
    rw [mem_newEvents_query_status_line h env fd v s s' e f hnew he', hbit,
      and_two_pow_ne_zero]
  refine ⟨s', hs', hline, ?_, ?_⟩
  · intro fmt args hmem
    rw [hnew] at hmem
    simp only [List.cons_append, List.mem_cons, List.mem_append, mem_reportLines,
      List.mem_singleton, List.not_mem_nil, or_false] at hmem
    rcases hmem with h1 | (h1 | h1 | ⟨g, hg, h1⟩ | h1) | h1 | h1
    · simp [statusRequest] at h1
    · simp only [Event.printf.injEq] at h1
      exact Or.inl (by simp [plainFormats, h1.1])
    · simp only [readyLine, Event.printf.injEq] at h1
      exact Or.inl (by simp [plainFormats, h1.2.1])
    · refine Or.inr ⟨g, h1, ?_⟩
      rw [← and_two_pow_ne_zero, ← hbit]; exact hg
    · simp only [Event.printf.injEq] at h1
      exact Or.inl (by simp [plainFormats, h1.2.1])
    · simp [paperRequest] at h1
    · rcases he' with ⟨fmt', args', rfl⟩ | ⟨args', rfl⟩
      · simp at h1
      · simp only [Event.printf.injEq] at h1
        exact Or.inl (by simp [plainFormats, h1.1])
  · intro set extra hextra hmask f
    rw [hline f, hmask, testBit_maskOf, hextra f]
    constructor
    · rintro (h1 | ⟨g, hg, hk⟩)
      · simp at h1
      · rw [← hdist hk]; exact hg
    · intro hf
      exact Or.inr ⟨f, hf, rfl⟩

theorem sampleBit_injective : Function.Injective sampleBit := by
  intro f g hfg
  cases f <;> cases g <;> first | rfl | (exact absurd hfg (by decide))

theorem sampleHdr_mask (f : Flag) : f.mask sampleHdr = 2 ^ sampleBit f := by
  cases f <;> rfl

/-- C1 at a concrete device: no paper and door open are set together with a bit of no
flag; both lines are printed and the paper-jam line is not. -/
theorem query_status_reports_exactly_set_flags_witness :
    ∃ s', query_status sampleHdr envDoorOpen 3 0 St.init = some s' ∧
      Flag.line 0 .NPNOPAPER ∈ newEvents St.init s' ∧
      Flag.line 0 .NPDOOROPEN ∈ newEvents St.init s' ∧
      Flag.line 0 .NPPAPERJAM ∉ newEvents St.init s' := by
  obtain ⟨s', hs', hline, -, -⟩ :=
    query_status_reports_exactly_set_flags sampleHdr envDoorOpen 3 0 St.init sampleBit
      sampleHdr_mask sampleBit_injective (by decide)
  refine ⟨s', hs', ?_, ?_, ?_⟩
  · exact (hline .NPNOPAPER).2 (by decide)
  · exact (hline .NPDOOROPEN).2 (by decide)
  · intro hmem
    exact absurd ((hline .NPPAPERJAM).1 hmem) (by decide)

/-- C2. After a status call that succeeded, `query_status` prints the ready line exactly
when the whole mask of the reply is zero; for the zero mask it prints the line of no
flag, and every line it prints is then the heading, the ready line, the raw mask or the
paper size. -/
theorem query_status_ready_iff_zero (h : Hdr) (env : Env) (fd v : Int) (s : St)
    (hok : ¬ (statusReply h env fd s).ret < 0) :
    ∃ s', query_status h env fd v s = some s' ∧
      (readyLine ∈ newEvents s s' ↔ (statusReply h env fd s).op.np_status.flags = 0) ∧
      ((statusReply h env fd s).op.np_status.flags = 0 →
        (∀ f : Flag,
          f.line (statusReply h env fd s).op.np_status.retrans ∉ newEvents s s') ∧
        (∀ fmt args, Event.printf fmt args ∈ newEvents s s' → fmt ∈ plainFormats)) := by
  obtain ⟨s', e, hs', hnew, he⟩ := query_status_ok h env fd v s hok
  have he' : (∃ fmt args, e = .fprintf_stderr fmt args) ∨
      (∃ args, e = .printf "Paper size: %s (code %d)\n" args) := by
    rcases he with ⟨-, fmt, args, rfl⟩ | ⟨-, name, -, rfl⟩
    · exact Or.inl ⟨_, _, rfl⟩
    · exact Or.inr ⟨_, rfl⟩
  refine ⟨s', hs', ?_, ?_⟩
  · rw [hnew]
    simp only [List.cons_append, List.mem_cons, List.mem_append, mem_reportLines,
      List.mem_singleton, List.not_mem_nil, or_false]
    constructor
    · rintro (h1 | (h1 | h1 | ⟨g, -, h1⟩ | h1) | h1 | h1)
      · simp [readyLine, statusRequest] at h1
      · simp [readyLine] at h1
      · exact h1.1
      · cases g <;> simp [Flag.line, readyLine] at h1
      · simp [readyLine] at h1
      · simp [readyLine, paperRequest] at h1
      · rcases he' with ⟨fmt, args, rfl⟩ | ⟨args, rfl⟩
        · simp [readyLine] at h1
        · simp [readyLine] at h1
    · intro hz
      exact Or.inr (Or.inl (Or.inr (Or.inl ⟨hz, trivial⟩)))
  · intro hz
    have hnone : ∀ f : Flag,
        f.line (statusReply h env fd s).op.np_status.retrans ∉ newEvents s s' := by
      intro f
      rw [mem_newEvents_query_status_line h env fd v s s' e f hnew he', hz]
      simp
    refine ⟨hnone, ?_⟩
    intro fmt args hmem
    have hmem' := hmem
    rw [hnew] at hmem
    simp only [List.cons_append, List.mem_cons, List.mem_append, mem_reportLines,
      List.mem_singleton, List.not_mem_nil, or_false] at hmem
    rcases hmem with h1 | (h1 | h1 | ⟨g, -, h1⟩ | h1) | h1 | h1
    · simp [statusRequest] at h1
    · simp only [Event.printf.injEq] at h1
      simp [plainFormats, h1.1]
    · simp only [readyLine, Event.printf.injEq] at h1
      simp [plainFormats, h1.2.1]
    · rw [h1] at hmem'
      exact absurd hmem' (hnone g)
    · simp only [Event.printf.injEq] at h1
      simp [plainFormats, h1.2.1]
    · simp [paperRequest] at h1
    · rcases he' with ⟨fmt', args', rfl⟩ | ⟨args', rfl⟩
      · simp at h1
      · simp only [Event.printf.injEq] at h1
        simp [plainFormats, h1.1]

/-- C2 at concrete devices: the zero mask gives the ready line, the mask of
`envDoorOpen` does not. -/
theorem query_status_ready_iff_zero_witness :
    (∃ s', query_status sampleHdr envReady 3 0 St.init = some s' ∧
      readyLine ∈ newEvents St.init s') ∧
    (∃ s', query_status sampleHdr envDoorOpen 3 0 St.init = some s' ∧
      readyLine ∉ newEvents St.init s') := by
  constructor
  · obtain ⟨s', hs', hready, -⟩ :=
      query_status_ready_iff_zero sampleHdr envReady 3 0 St.init (by decide)
    exact ⟨s', hs', hready.2 (by decide)⟩
  · obtain ⟨s', hs', hready, -⟩ :=
      query_status_ready_iff_zero sampleHdr envDoorOpen 3 0 St.init (by decide)
    exact ⟨s', hs', fun hmem => absurd (hready.1 hmem) (by decide)⟩

/-- C3. The choice of the paper name is defined for every code, so the table is never
read outside its five entries: the codes 0 to 4 give the five names and every other
code gives `Unknown`. `query_status` therefore always returns, and when both control
calls succeed the last thing it prints is the paper-size line with that name and the
code the device replied. -/
theorem paper_size_decode_total (h : Hdr) (env : Env) (fd v : Int) (s : St)
    (hok : ¬ (statusReply h env fd s).ret < 0)
    (hpaper : ¬ (paperReply h env fd v s).ret < 0) :
    (∀ code : Int, paper_name code = some
        (if code = 0 then "No cassette" else if code = 1 then "A4"
         else if code = 2 then "Letter" else if code = 3 then "B5"
         else if code = 4 then "Legal" else "Unknown")) ∧
    (∀ (env' : Env) (fd' v' : Int) (s0 : St), ∃ s', query_status h env' fd' v' s0 = some s') ∧
    (∃ s' name, query_status h env fd v s = some s' ∧
      paper_name (paperReply h env fd v s).op.np_size = some name ∧
      (newEvents s s').getLast? = some (.printf "Paper size: %s (code %d)\n"
        [.str name, .int (paperReply h env fd v s).op.np_size])) := by
  refine ⟨paper_name_eq, ?_, ?_⟩
  · intro env' fd' v' s0
    rw [query_status_eq]
    split_ifs <;> exact ⟨_, rfl⟩
  · obtain ⟨s', e, hs', hnew, he⟩ := query_status_ok h env fd v s hok
    rcases he with ⟨hlt, -⟩ | ⟨-, name, hname, rfl⟩
    · exact absurd hlt hpaper
    · refine ⟨s', name, hs', hname, ?_⟩
      rw [hnew, List.getLast?_append]
      rfl

/-- C3 at concrete devices: code 2 prints Letter and code 99 prints Unknown with 99. -/
theorem paper_size_decode_total_witness :
    paper_name 2 = some "Letter" ∧ paper_name 99 = some "Unknown" ∧
    (∃ s', query_status sampleHdr envDoorOpen 3 0 St.init = some s' ∧
      (newEvents St.init s').getLast? =
        some (.printf "Paper size: %s (code %d)\n" [.str "Letter", .int 2])) ∧
    (∃ s', query_status sampleHdr envReady 3 0 St.init = some s' ∧
      (newEvents St.init s').getLast? =
        some (.printf "Paper size: %s (code %d)\n" [.str "Unknown", .int 99])) := by
  have h2 := paper_size_decode_total sampleHdr envDoorOpen 3 0 St.init (by decide) (by decide)
  have h99 := paper_size_decode_total sampleHdr envReady 3 0 St.init (by decide) (by decide)
  refine ⟨by decide, by decide, ?_, ?_⟩
  · obtain ⟨-, -, s', name, hs', hname, hlast⟩ := h2
    have hn : name = "Letter" := by
      have hc : (paperReply sampleHdr envDoorOpen 3 0 St.init).op.np_size = 2 := by decide
      rw [hc] at hname
      exact (Option.some.inj hname).symm
    subst hn
    exact ⟨s', hs', hlast⟩
  · obtain ⟨-, -, s', name, hs', hname, hlast⟩ := h99
    have hn : name = "Unknown" := by
      have hc : (paperReply sampleHdr envReady 3 0 St.init).op.np_size = 99 := by decide
      rw [hc] at hname
      exact (Option.some.inj hname).symm
    subst hn
    exact ⟨s', hs', hlast⟩

/-! ## Claims about the error classifier -/

theorem explain_errno_eq_classify (h : Hdr) (env : Env) (msg : String) (s : St) :
    explain_errno h env msg s =
      emit ((classify h env s.errno).message msg) (enter (.explain_errno msg) s) := by
  unfold explain_errno classify
  simp only [enter_errno]
  split_ifs <;> rfl

theorem recognized_iff (h : Hdr) (env : Env) (e : Int) :
    recognized h env e ↔ e ∈ [h.ENOINIT, h.EDEVERR, h.ENXIO, h.EIO, h.EBUSY] := by
  unfold recognized
  simp only [explain_errno_eq_classify, classify, emit_trace, enter_trace, St.init,
    List.nil_append, List.mem_cons, List.mem_singleton, List.not_mem_nil, or_false]
  constructor
  · intro hrec
    by_contra hne
    simp only [not_or] at hne
    obtain ⟨h1, h2, h3, h4, h5⟩ := hne
    have := hrec ""
    simp [h1, h2, h3, h4, h5, ErrKind.message] at this
  · intro hmem msg
    split_ifs with h1 h2 h3 h4 h5
    · simp [ErrKind.message]
    · simp [ErrKind.message]
    · simp [ErrKind.message]
    · simp [ErrKind.message]
    · simp [ErrKind.message]
    · tauto

theorem recognized_at_most_five (h : Hdr) (env : Env) (l : List Int) (hl : l.Nodup)
    (hrec : ∀ e ∈ l, recognized h env e) : l.length ≤ 5 := by
  have hsub : l ⊆ [h.ENOINIT, h.EDEVERR, h.ENXIO, h.EIO, h.EBUSY] := by
    intro e he
    exact (recognized_iff h env e).1 (hrec e he)
  exact (List.Nodup.subperm hl hsub).length_le

/-- C4, as the code has it. `explain_errno` is a total function of `errno` and the
operation name: it writes the line of the kind the table of the specification gives and
touches nothing else. The constants being pairwise distinct, each of the five recognized
values has its fixed kind (margins-not-set for ENOINIT, device-error for EDEVERR,
unsupported-operation for ENXIO, I/O-failure for EIO, device-busy for EBUSY), every other
value has the system-failure kind with the message text of the system for that value,
and the line of every kind starts with the operation name. -/
theorem explain_errno_classifies (h : Hdr) (env : Env) (msg : String) (s : St)
    (hd : [h.ENOINIT, h.EDEVERR, h.ENXIO, h.EIO, h.EBUSY].Nodup) :
    explain_errno h env msg s =
      emit ((classify h env s.errno).message msg) (enter (.explain_errno msg) s) ∧
    classify h env h.ENOINIT = .MarginsNotSet ∧
    classify h env h.EDEVERR = .DeviceError ∧
    classify h env h.ENXIO = .UnsupportedOperation ∧
    classify h env h.EIO = .IoFailure ∧
    classify h env h.EBUSY = .DeviceBusy ∧
    (∀ e : Int, e ∉ [h.ENOINIT, h.EDEVERR, h.ENXIO, h.EIO, h.EBUSY] →
      classify h env e = .SystemFailure (env.strerror e)) ∧
    (∀ kind : ErrKind, ∃ rest args,
      kind.message msg = .fprintf_stderr ("%s: " ++ rest) (.str msg :: args)) := by
  simp only [List.nodup_cons, List.mem_cons, List.mem_singleton, List.not_mem_nil, or_false,
    not_or, List.nodup_nil, and_true] at hd
  obtain ⟨⟨h12, h13, h14, h15⟩, ⟨h23, h24, h25⟩, ⟨h34, h35⟩, h45, -⟩ := hd
  refine ⟨explain_errno_eq_classify h env msg s, ?_, ?_, ?_, ?_, ?_, ?_, ?_⟩
  · simp [classify]
  · simp [classify, Ne.symm h12]
  · simp [classify, Ne.symm h13, Ne.symm h23]
  · simp [classify, Ne.symm h14, Ne.symm h24, Ne.symm h34]
  · simp [classify, Ne.symm h15, Ne.symm h25, Ne.symm h35, Ne.symm h45]
  · intro e he
    simp only [List.mem_cons, List.mem_singleton, List.not_mem_nil, or_false, not_or] at he
    obtain ⟨e1, e2, e3, e4, e5⟩ := he
    simp [classify, e1, e2, e3, e4, e5]
  · intro kind
    cases kind
    · exact ⟨"Margins not set before write\n", [], rfl⟩
    · exact ⟨"Printer is in error state\n", [], rfl⟩
    · exact ⟨"Unknown command or device\n", [], rfl⟩
    · exact ⟨"I/O error talking to printer\n", [], rfl⟩
    · exact ⟨"Printer already in use\n", [], rfl⟩
    · exact ⟨"%s\n", [_], rfl⟩

/-- C4 at the sample header: the five constants are distinct, EBUSY gives the busy
line and the unrecognized value 13 gives the message text of the system. -/
theorem explain_errno_classifies_witness :
    [sampleHdr.ENOINIT, sampleHdr.EDEVERR, sampleHdr.ENXIO, sampleHdr.EIO,
      sampleHdr.EBUSY].Nodup ∧
    explain_errno sampleHdr (scripted []) "open" { St.init with errno := 16 } =
      emit (.fprintf_stderr "%s: Printer already in use\n" [.str "open"])
        (enter (.explain_errno "open") { St.init with errno := 16 }) ∧
    classify sampleHdr (scripted []) 13 = .SystemFailure ((scripted []).strerror 13) := by
  have hd : [sampleHdr.ENOINIT, sampleHdr.EDEVERR, sampleHdr.ENXIO, sampleHdr.EIO,
      sampleHdr.EBUSY].Nodup := by decide
  obtain ⟨heq, -, -, -, -, hbusy, hother, -⟩ :=
    explain_errno_classifies sampleHdr (scripted []) "open" { St.init with errno := 16 } hd
  refine ⟨hd, ?_, hother 13 (by decide)⟩
  rw [heq]
  have h16 : ({ St.init with errno := 16 } : St).errno = sampleHdr.EBUSY := rfl
  rw [h16, hbusy]
  rfl

/-- C4 as stated fails: at the sample header the recognized errno values are the five
of the `switch` and no six distinct values are recognized. -/
theorem explain_errno_recognizes_five_not_six :
    (∀ e : Int, recognized sampleHdr (scripted []) e ↔ e ∈ [66, 83, 6, 5, 16]) ∧
    ¬ ∃ l : List Int, l.Nodup ∧ l.length = 6 ∧
        ∀ e ∈ l, recognized sampleHdr (scripted []) e := by
  refine ⟨fun e => recognized_iff sampleHdr (scripted []) e, ?_⟩
  rintro ⟨l, hl, hlen, hrec⟩
  have := recognized_at_most_five sampleHdr (scripted []) l hl hrec
  omega

/-! ## The three operations that issue one request -/

theorem set_power_eq_control (h : Hdr) (env : Env) (on_ : Int) (s : St) :
    set_power h env on_ s =
      control h env (.set_power on_) (powerOp h on_) (powerNote on_) "ioctl(NPSETPOWER)" s :=
  rfl

theorem set_resolution_eq_control (h : Hdr) (env : Env) (dpi : Int) (s : St) :
    set_resolution h env dpi s =
      control h env (.set_resolution dpi) (resolutionOp h dpi) (resolutionNote dpi)
        "ioctl(NPSETRESOLUTION)" s :=
  rfl

theorem set_margins_eq_control (h : Hdr) (env : Env) (l t w ht : Int) (s : St) :
    set_margins h env l t w ht s =
      control h env (.set_margins l t w ht) (marginsOp h l t w ht) (marginsNote l t w ht)
        "ioctl(NPSETMARGINS)" s :=
  rfl

theorem explain_errno_trace (h : Hdr) (env : Env) (msg : String) (s : St) :
    (explain_errno h env msg s).trace =
      s.trace ++ [(classify h env s.errno).message msg] := by
  rw [explain_errno_eq_classify]; rfl

@[simp] theorem explain_errno_calls (h : Hdr) (env : Env) (msg : String) (s : St) :
    (explain_errno h env msg s).calls = s.calls ++ [.explain_errno msg] := by
  rw [explain_errno_eq_classify]; rfl

@[simp] theorem explain_errno_verbose (h : Hdr) (env : Env) (msg : String) (s : St) :
    (explain_errno h env msg s).verbose = s.verbose := by
  rw [explain_errno_eq_classify]; rfl

@[simp] theorem explain_errno_errno (h : Hdr) (env : Env) (msg : String) (s : St) :
    (explain_errno h env msg s).errno = s.errno := by
  rw [explain_errno_eq_classify]; rfl

theorem control_open_failed (h : Hdr) (env : Env) (call : Call) (op : Npop) (note : Event)
    (msg : String) (s : St) (hf : (openReply h env s).ret < 0) :
    (control h env call op note msg s).1 = -1 ∧
    (control h env call op note msg s).2.trace =
      s.trace ++ [openRequest h, (classify h env (openReply h env s).errno).message "open"] ∧
    (control h env call op note msg s).2.calls =
      s.calls ++ [call, .open_printer h.O_RDWR, .explain_errno "open"] ∧
    (control h env call op note msg s).2.verbose = s.verbose := by
  simp only [openReply, openRequest] at hf
  simp [control, open_printer, hf, explain_errno_trace, openReply, openRequest]

theorem control_request_failed (h : Hdr) (env : Env) (call : Call) (op : Npop) (note : Event)
    (msg : String) (s : St) (hok : ¬ (openReply h env s).ret < 0)
    (hf : (controlReply h env op note s).ret = -1) :
    (control h env call op note msg s).1 = -1 ∧
    (control h env call op note msg s).2.trace =
      s.trace ++ openRequest h :: controlNotes note s ++
        [controlRequest h env op s,
         (classify h env (controlReply h env op note s).errno).message msg,
         .sys_close (openReply h env s).ret] ∧
    (control h env call op note msg s).2.calls =
      s.calls ++ [call, .open_printer h.O_RDWR, .explain_errno msg] ∧
    (control h env call op note msg s).2.verbose = s.verbose := by
  simp only [openReply, openRequest] at hok
  simp only [controlReply, controlNotes, controlRequest, openReply, openRequest, openedNote] at hf
  by_cases hv : s.verbose = 0
  · simp [hv] at hf
    simp [control, open_printer, hok, hf, hv, explain_errno_trace, openReply, openRequest,
      controlReply, controlNotes, controlRequest]
  · simp [hv] at hf
    simp [control, open_printer, hok, hf, hv, explain_errno_trace, openReply, openRequest,
      controlReply, controlNotes, controlRequest, openedNote]

theorem control_done (h : Hdr) (env : Env) (call : Call) (op : Npop) (note : Event)
    (msg : String) (s : St) (hok : ¬ (openReply h env s).ret < 0)
    (hdone : (controlReply h env op note s).ret ≠ -1) :
    (control h env call op note msg s).1 = 0 ∧
    (control h env call op note msg s).2.trace =
      s.trace ++ openRequest h :: controlNotes note s ++
        [controlRequest h env op s, .sys_close (openReply h env s).ret] ∧
    (control h env call op note msg s).2.calls =
      s.calls ++ [call, .open_printer h.O_RDWR] ∧
    (control h env call op note msg s).2.verbose = s.verbose := by
  simp only [openReply, openRequest] at hok
  simp only [controlReply, controlNotes, controlRequest, openReply, openRequest, openedNote] at hdone
  by_cases hv : s.verbose = 0
  · simp [hv] at hdone
    simp [control, open_printer, hok, hdone, hv, openReply, openRequest,
      controlReply, controlNotes, controlRequest]
  · simp [hv] at hdone
    simp [control, open_printer, hok, hdone, hv, openReply, openRequest,
      controlReply, controlNotes, controlRequest, openedNote]

@[simp] theorem ErrKind.message_isOutput (msg : String) (kind : ErrKind) :
    (kind.message msg).isOutput = true := by
  cases kind <;> rfl

theorem Event.isOutput_not_device (e : Event) (he : e.isOutput = true) :
    e.isOpen = false ∧ e.isClose = false ∧ e.isIoctl = false ∧ e.isSleep = false := by
  cases e <;> simp_all [Event.isOutput, Event.isOpen, Event.isClose, Event.isIoctl,
    Event.isSleep]

theorem controlNotes_isOutput (note : Event) (hn : note.isOutput = true) (s : St) :
    ∀ e ∈ controlNotes note s, e.isOutput = true := by
  intro e he
  unfold controlNotes at he
  simp only [List.mem_append, mem_ite_singleton] at he
  rcases he with ⟨-, rfl⟩ | ⟨-, rfl⟩
  · rfl
  · exact hn

/-- The events of an operation of the shape `control`, in its three outcomes. -/
theorem control_newEvents (h : Hdr) (env : Env) (call : Call) (op : Npop) (note : Event)
    (msg : String) (s : St) :
    newEvents s (control h env call op note msg s).2 =
      if (openReply h env s).ret < 0 then
        [openRequest h, (classify h env (openReply h env s).errno).message "open"]
      else
        openRequest h :: controlNotes note s ++ controlRequest h env op s ::
          ((if (controlReply h env op note s).ret = -1
              then [(classify h env (controlReply h env op note s).errno).message msg]
              else []) ++ [.sys_close (openReply h env s).ret]) := by
  apply newEvents_of_append
  by_cases hopen : (openReply h env s).ret < 0
  · rw [if_pos hopen]
    exact (control_open_failed h env call op note msg s hopen).2.1
  · rw [if_neg hopen]
    by_cases hreq : (controlReply h env op note s).ret = -1
    · rw [if_pos hreq]
      rw [(control_request_failed h env call op note msg s hopen hreq).2.1]; simp
    · rw [if_neg hreq]
      rw [(control_done h env call op note msg s hopen hreq).2.1]; simp

theorem control_result (h : Hdr) (env : Env) (call : Call) (op : Npop) (note : Event)
    (msg : String) (s : St) :
    (control h env call op note msg s).1 =
      if (openReply h env s).ret < 0 ∨ (controlReply h env op note s).ret = -1
        then -1 else 0 := by
  by_cases hopen : (openReply h env s).ret < 0
  · rw [if_pos (Or.inl hopen)]
    exact (control_open_failed h env call op note msg s hopen).1
  · by_cases hreq : (controlReply h env op note s).ret = -1
    · rw [if_pos (Or.inr hreq)]
      exact (control_request_failed h env call op note msg s hopen hreq).1
    · rw [if_neg (by tauto)]
      exact (control_done h env call op note msg s hopen hreq).1

theorem control_trace_append (h : Hdr) (env : Env) (call : Call) (op : Npop) (note : Event)
    (msg : String) (s : St) :
    (control h env call op note msg s).2.trace =
      s.trace ++ newEvents s (control h env call op note msg s).2 := by
  rw [control_newEvents]
  by_cases hopen : (openReply h env s).ret < 0
  · rw [if_pos hopen]
    exact (control_open_failed h env call op note msg s hopen).2.1
  · rw [if_neg hopen]
    by_cases hreq : (controlReply h env op note s).ret = -1
    · rw [if_pos hreq]
      rw [(control_request_failed h env call op note msg s hopen hreq).2.1]; simp
    · rw [if_neg hreq]
      rw [(control_done h env call op note msg s hopen hreq).2.1]; simp

theorem control_ioctls (h : Hdr) (env : Env) (call : Call) (op : Npop) (note : Event)
    (msg : String) (s : St) (hn : note.isOutput = true) :
    (newEvents s (control h env call op note msg s).2).filter Event.isIoctl =
      if (openReply h env s).ret < 0 then [] else [controlRequest h env op s] := by
  have hnotes : (controlNotes note s).filter Event.isIoctl = [] := by
    rw [List.filter_eq_nil_iff]
    intro e he
    have := (Event.isOutput_not_device e (controlNotes_isOutput note hn s e he)).2.2.1
    simp [this]
  have hmsg : ∀ (k : ErrKind) (m : String), (k.message m).isIoctl = false := fun k m =>
    (Event.isOutput_not_device _ (ErrKind.message_isOutput m k)).2.2.1
  rw [control_newEvents]
  split_ifs with hopen hreq
  · simp [List.filter_cons, hmsg, openRequest]
    rfl
  · simp [List.filter_cons, List.filter_append, hnotes, hmsg, openRequest, controlRequest]
    rfl
  · simp [List.filter_cons, List.filter_append, hnotes, hmsg, openRequest, controlRequest]
    rfl

theorem control_closesOnce (h : Hdr) (env : Env) (call : Call) (op : Npop) (note : Event)
    (msg : String) (s : St) (hn : note.isOutput = true) :
    ClosesOnce h env s.trace (control h env call op note msg s).2.trace := by
  have hmsg : ∀ (k : ErrKind) (m : String),
      (k.message m).isOpen = false ∧ (k.message m).isClose = false ∧
        (k.message m).isIoctl = false := fun k m =>
    have := Event.isOutput_not_device _ (ErrKind.message_isOutput m k)
    ⟨this.1, this.2.1, this.2.2.1⟩
  unfold ClosesOnce
  rw [control_trace_append, control_newEvents]
  change (if (openReply h env s).ret < 0 then _ else _)
  by_cases hopen : (openReply h env s).ret < 0
  · rw [if_pos hopen, if_pos hopen]
    refine ⟨_, rfl, ?_⟩
    intro e he
    rw [List.mem_singleton] at he
    subst he
    exact hmsg _ _
  · rw [if_neg hopen, if_neg hopen]
    refine ⟨controlNotes note s ++ controlRequest h env op s ::
      (if (controlReply h env op note s).ret = -1
        then [(classify h env (controlReply h env op note s).errno).message msg]
        else []), ?_, ?_⟩
    · simp [openReply]
    · intro e he
      simp only [List.mem_append, List.mem_cons, mem_ite_singleton] at he
      rcases he with he | rfl | ⟨-, rfl⟩
      · have := Event.isOutput_not_device e (controlNotes_isOutput note hn s e he)
        exact ⟨this.1, this.2.1⟩
      · exact ⟨rfl, rfl⟩
      · exact ⟨(hmsg _ _).1, (hmsg _ _).2.1⟩

/-! ## Claims about the resolution request -/

/-- C7. When the device opens, `set_resolution 300` issues one control call, whose record
has the op code NPSETRESOLUTION and the resolution DPI300 and is zero elsewhere, and
`set_resolution 400` issues one, with NPSETRESOLUTION and DPI400. -/
theorem set_resolution_request (h : Hdr) (env : Env) (s : St)
    (hopen : ¬ (openReply h env s).ret < 0) :
    (newEvents s (set_resolution h env 300 s).2).filter Event.isIoctl =
      [.sys_ioctl (openReply h env s).ret h.NPIOCPOP
        { Npop.zero with np_op := h.NPSETRESOLUTION, np_resolution := h.DPI300 }] ∧
    (newEvents s (set_resolution h env 400 s).2).filter Event.isIoctl =
      [.sys_ioctl (openReply h env s).ret h.NPIOCPOP
        { Npop.zero with np_op := h.NPSETRESOLUTION, np_resolution := h.DPI400 }] := by
  constructor
  · rw [set_resolution_eq_control,
      control_ioctls h env _ _ (resolutionNote 300) _ s rfl, if_neg hopen]
    rfl
  · rw [set_resolution_eq_control,
      control_ioctls h env _ _ (resolutionNote 400) _ s rfl, if_neg hopen]
    rfl

/-- C7 at the sample header, on a device that opens with the handle 0. -/
theorem set_resolution_request_witness :
    ¬ (openReply sampleHdr (scripted []) St.init).ret < 0 ∧
    (newEvents St.init (set_resolution sampleHdr (scripted []) 300 St.init).2).filter
        Event.isIoctl =
      [.sys_ioctl 0 100 { Npop.zero with np_op := 2, np_resolution := 0 }] ∧
    (newEvents St.init (set_resolution sampleHdr (scripted []) 400 St.init).2).filter
        Event.isIoctl =
      [.sys_ioctl 0 100 { Npop.zero with np_op := 2, np_resolution := 1 }] :=
  ⟨by decide, set_resolution_request sampleHdr (scripted []) St.init (by decide)⟩

/-! ## The dispatch of `main` -/

theorem main_commandLine (h : Hdr) (env : Env) (prog : String) (v : Bool) (cmd : String)
    (rest : List String) (hcmd : v = false → cmd ≠ "-v") :
    main h env (commandLine prog v cmd rest) =
      main_dispatch h env (commandLine prog v cmd rest) (if v then 2 else 1) cmd
        (prologue env v) := by
  cases v
  · have hc : cmd ≠ "-v" := hcmd rfl
    simp [main, commandLine, prologue, rootWarning, St.init, hc]
  · simp [main, commandLine, prologue, rootWarning, St.init]
    rw [if_neg (by omega), if_neg (by omega)]

theorem commandLine_length (prog : String) (v : Bool) (cmd : String) (rest : List String) :
    (commandLine prog v cmd rest).length = (if v then 2 else 1) + 1 + rest.length := by
  cases v <;> simp [commandLine] <;> omega

theorem commandLine_zero (prog : String) (v : Bool) (cmd : String) (rest : List String) :
    (commandLine prog v cmd rest)[0]? = some prog := by
  simp [commandLine]

theorem commandLine_arg (prog : String) (v : Bool) (cmd : String) (rest : List String)
    (k : Nat) :
    (commandLine prog v cmd rest)[(if v then 2 else 1) + (k + 1)]? = rest[k]? := by
  cases v
  · simp only [commandLine, Bool.false_eq_true, if_false, List.nil_append]
    rw [show 1 + (k + 1) = (k + 1) + 1 by omega]
    simp
  · simp only [commandLine, if_true, List.singleton_append]
    rw [show 2 + (k + 1) = ((k + 1) + 1) + 1 by omega]
    simp

theorem main_short (h : Hdr) (env : Env) (prog : String) :
    main h env [prog] = some (1, usage prog St.init) ∧
    main h env [prog, "-v"] = some (1, usage prog { St.init with verbose := 1 }) := by
  constructor <;> simp [main]

/-! ## Claims about the two reads of a status query -/

theorem reportLines_isOutput (h : Hdr) (op : Npop) (v : Int) :
    ∀ e ∈ reportLines h op v, e.isOutput = true := by
  intro e he
  rw [mem_reportLines] at he
  rcases he with rfl | ⟨-, rfl⟩ | ⟨f, -, rfl⟩ | ⟨-, rfl⟩
  · rfl
  · rfl
  · cases f <;> rfl
  · rfl

/-- The events of `query_status`, in its three outcomes. -/
theorem query_status_events (h : Hdr) (env : Env) (fd v : Int) (s : St) :
    ∃ s', query_status h env fd v s = some s' ∧ s'.verbose = s.verbose ∧
      s'.trace = s.trace ++ newEvents s s' ∧
      ((statusReply h env fd s).ret < 0 →
        newEvents s s' = [statusRequest h fd,
          (classify h env (statusReply h env fd s).errno).message "ioctl(NPGETSTATUS)"]) ∧
      (¬ (statusReply h env fd s).ret < 0 → (paperReply h env fd v s).ret < 0 →
        newEvents s s' = statusRequest h fd :: reportLines h (statusReply h env fd s).op v ++
          [paperRequest h fd,
           (classify h env (paperReply h env fd v s).errno).message "ioctl(NPGETPAPERSIZE)"]) ∧
      (¬ (statusReply h env fd s).ret < 0 → ¬ (paperReply h env fd v s).ret < 0 →
        ∃ name, paper_name (paperReply h env fd v s).op.np_size = some name ∧
        newEvents s s' = statusRequest h fd :: reportLines h (statusReply h env fd s).op v ++
          [paperRequest h fd,
           .printf "Paper size: %s (code %d)\n"
             [.str name, .int (paperReply h env fd v s).op.np_size]]) := by
  rw [query_status_eq]
  by_cases hst : (statusReply h env fd s).ret < 0
  · rw [if_pos hst]
    have ht : (explain_errno h env "ioctl(NPGETSTATUS)"
        (syscall env (statusRequest h fd) (enter (.query_status fd v) s)).2).trace =
        s.trace ++ [statusRequest h fd,
          (classify h env (statusReply h env fd s).errno).message "ioctl(NPGETSTATUS)"] := by
      simp [explain_errno_trace, statusReply]
    have hn := newEvents_of_append s _ _ ht
    refine ⟨_, rfl, by simp, ?_, fun _ => hn, fun hc => absurd hst hc, fun hc => absurd hst hc⟩
    rw [hn, ht]
  · rw [if_neg hst]
    by_cases hp : (paperReply h env fd v s).ret < 0
    · rw [if_pos hp]
      have ht : (explain_errno h env "ioctl(NPGETPAPERSIZE)"
          (syscall env (paperRequest h fd) (reported h env fd v s)).2).trace =
          s.trace ++ (statusRequest h fd :: reportLines h (statusReply h env fd s).op v ++
            [paperRequest h fd,
             (classify h env (paperReply h env fd v s).errno).message
               "ioctl(NPGETPAPERSIZE)"]) := by
        simp [explain_errno_trace, reported_trace, paperReply]
      have hn := newEvents_of_append s _ _ ht
      refine ⟨_, rfl, ?_, ?_, fun hc => absurd hc hst, fun _ _ => hn, fun _ hc => absurd hp hc⟩
      · simp [reported, query_status_report]
      · rw [hn, ht]
    · rw [if_neg hp]
      have ht : (emit (.printf "Paper size: %s (code %d)\n"
            [.str (if (paperReply h env fd v s).op.np_size = 0 then "No cassette"
                   else if (paperReply h env fd v s).op.np_size = 1 then "A4"
                   else if (paperReply h env fd v s).op.np_size = 2 then "Letter"
                   else if (paperReply h env fd v s).op.np_size = 3 then "B5"
                   else if (paperReply h env fd v s).op.np_size = 4 then "Legal"
                   else "Unknown"),
             .int (paperReply h env fd v s).op.np_size])
          (syscall env (paperRequest h fd) (reported h env fd v s)).2).trace =
          s.trace ++ (statusRequest h fd :: reportLines h (statusReply h env fd s).op v ++
            [paperRequest h fd,
             .printf "Paper size: %s (code %d)\n"
               [.str (if (paperReply h env fd v s).op.np_size = 0 then "No cassette"
                   else if (paperReply h env fd v s).op.np_size = 1 then "A4"
                   else if (paperReply h env fd v s).op.np_size = 2 then "Letter"
                   else if (paperReply h env fd v s).op.np_size = 3 then "B5"
                   else if (paperReply h env fd v s).op.np_size = 4 then "Legal"
                   else "Unknown"),
                .int (paperReply h env fd v s).op.np_size]]) := by
        simp [reported_trace]
      have hn := newEvents_of_append s _ _ ht
      refine ⟨_, rfl, ?_, ?_, fun hc => absurd hc hst, fun _ hc => absurd hc hp,
        fun _ _ => ⟨_, paper_name_eq _, hn⟩⟩
      · simp [reported, query_status_report]
      · rw [hn, ht]

theorem open_printer_fst (h : Hdr) (env : Env) (s : St) :
    (open_printer h env h.O_RDWR s).1 = (openReply h env s).ret := rfl

theorem open_printer_trace (h : Hdr) (env : Env) (s : St) :
    (open_printer h env h.O_RDWR s).2.trace =
      s.trace ++ openRequest h ::
        (if (openReply h env s).ret < 0
          then [(classify h env (openReply h env s).errno).message "open"]
          else if s.verbose ≠ 0 then [openedNote] else []) := by
  unfold open_printer
  simp only [syscall_fst, enter_trace, openReply, openRequest]
  split_ifs <;> simp_all [explain_errno_trace, openedNote, openRequest]

theorem main_status_closesOnce (h : Hdr) (env : Env) (argv : List String) (argi : Nat)
    (s : St) :
    ∃ code s', main_dispatch h env argv argi "status" s = some (code, s') ∧
      code = (if (openReply h env s).ret < 0 then 4 else 0) ∧
      ClosesOnce h env s.trace s'.trace := by
  have hmsg : ∀ (k : ErrKind) (m : String),
      (k.message m).isOpen = false ∧ (k.message m).isClose = false ∧
        (k.message m).isIoctl = false := fun k m =>
    have := Event.isOutput_not_device _ (ErrKind.message_isOutput m k)
    ⟨this.1, this.2.1, this.2.2.1⟩
  unfold ClosesOnce
  change ∃ code s', _ ∧ _ ∧ (if (openReply h env s).ret < 0 then _ else _)
  by_cases hopen : (openReply h env s).ret < 0
  · have hfd : (open_printer h env h.O_RDWR s).1 < 0 := hopen
    refine ⟨4, (open_printer h env h.O_RDWR s).2, ?_, by rw [if_pos hopen], ?_⟩
    · simp [main_dispatch, hfd]
    · rw [if_pos hopen, open_printer_trace, if_pos hopen]
      refine ⟨_, rfl, ?_⟩
      intro e he
      rw [List.mem_singleton] at he
      subst he
      exact hmsg _ _
  · have hfd : ¬ (open_printer h env h.O_RDWR s).1 < 0 := hopen
    obtain ⟨s1, hs1, -, htr, hfail, hpf, hok⟩ :=
      query_status_events h env (open_printer h env h.O_RDWR s).1
        (open_printer h env h.O_RDWR s).2.verbose (open_printer h env h.O_RDWR s).2
    refine ⟨0, (syscall env (.sys_close (open_printer h env h.O_RDWR s).1) s1).2, ?_,
      by rw [if_neg hopen], ?_⟩
    · simp [main_dispatch, hfd, hs1]
    · rw [if_neg hopen]
      refine ⟨(if s.verbose ≠ 0 then [openedNote] else []) ++
        newEvents (open_printer h env h.O_RDWR s).2 s1, ?_, ?_⟩
      · rw [syscall_trace, htr, open_printer_trace, if_neg hopen, open_printer_fst]
        simp [openReply]
      · have hq : ∀ e ∈ newEvents (open_printer h env h.O_RDWR s).2 s1,
            e.isOpen = false ∧ e.isClose = false := by
          intro e he
          by_cases hst : (statusReply h env (open_printer h env h.O_RDWR s).1
              (open_printer h env h.O_RDWR s).2).ret < 0
          · rw [hfail hst] at he
            simp only [List.mem_cons, List.mem_singleton, List.not_mem_nil, or_false] at he
            rcases he with rfl | rfl
            · exact ⟨rfl, rfl⟩
            · exact ⟨(hmsg _ _).1, (hmsg _ _).2.1⟩
          · have hmem : e = statusRequest h (open_printer h env h.O_RDWR s).1 ∨
                e.isOutput = true ∨ e = paperRequest h (open_printer h env h.O_RDWR s).1 := by
              by_cases hp : (paperReply h env (open_printer h env h.O_RDWR s).1
                  (open_printer h env h.O_RDWR s).2.verbose
                  (open_printer h env h.O_RDWR s).2).ret < 0
              · rw [hpf hst hp] at he
                simp only [List.cons_append, List.mem_cons, List.mem_append,
                  List.mem_singleton, List.not_mem_nil, or_false] at he
                rcases he with rfl | he | rfl | rfl
                · exact Or.inl rfl
                · exact Or.inr (Or.inl (reportLines_isOutput _ _ _ e he))
                · exact Or.inr (Or.inr rfl)
                · exact Or.inr (Or.inl (ErrKind.message_isOutput _ _))
              · obtain ⟨name, -, hn⟩ := hok hst hp
                rw [hn] at he
                simp only [List.cons_append, List.mem_cons, List.mem_append,
                  List.mem_singleton, List.not_mem_nil, or_false] at he
                rcases he with rfl | he | rfl | rfl
                · exact Or.inl rfl
                · exact Or.inr (Or.inl (reportLines_isOutput _ _ _ e he))
                · exact Or.inr (Or.inr rfl)
                · exact Or.inr (Or.inl rfl)
            rcases hmem with rfl | hout | rfl
            · exact ⟨rfl, rfl⟩
            · have := Event.isOutput_not_device e hout
              exact ⟨this.1, this.2.1⟩
            · exact ⟨rfl, rfl⟩
        intro e he
        rw [List.mem_append, mem_ite_singleton] at he
        rcases he with ⟨-, rfl⟩ | he
        · exact ⟨rfl, rfl⟩
        · exact hq e he

/-- C5. Each of `set_power`, `set_resolution`, `set_margins` and the status command of
`main` keeps the handle discipline `ClosesOnce`: it starts by opening the device; when
the open fails it makes no close and no control call; when the open succeeds its last
event is the close of the handle, with no other close and no open before it, whatever
the control calls reply. In `main` the events before the open of the status command
contain no open, close or control call. -/
theorem adapter_closes_handle_once (h : Hdr) (env : Env) :
    (∀ (on_ : Int) (s : St), ClosesOnce h env s.trace (set_power h env on_ s).2.trace) ∧
    (∀ (dpi : Int) (s : St), ClosesOnce h env s.trace (set_resolution h env dpi s).2.trace) ∧
    (∀ (l t w ht : Int) (s : St),
      ClosesOnce h env s.trace (set_margins h env l t w ht s).2.trace) ∧
    (∀ (prog : String) (v : Bool) (rest : List String),
      ∃ code s', main h env (commandLine prog v "status" rest) = some (code, s') ∧
        (∀ e ∈ (prologue env v).trace,
          e.isOpen = false ∧ e.isClose = false ∧ e.isIoctl = false) ∧
        ClosesOnce h env (prologue env v).trace s'.trace) := by
  refine ⟨?_, ?_, ?_, ?_⟩
  · intro on_ s
    rw [set_power_eq_control]
    exact control_closesOnce h env _ _ _ _ s rfl
  · intro dpi s
    rw [set_resolution_eq_control]
    exact control_closesOnce h env _ _ _ _ s rfl
  · intro l t w ht s
    rw [set_margins_eq_control]
    exact control_closesOnce h env _ _ _ _ s rfl
  · intro prog v rest
    rw [main_commandLine h env prog v "status" rest (by intro _; decide)]
    obtain ⟨code, s', hm, -, hc⟩ :=
      main_status_closesOnce h env (commandLine prog v "status" rest) (if v then 2 else 1)
        (prologue env v)
    refine ⟨code, s', hm, ?_, hc⟩
    intro e he
    simp only [prologue, emit_if_trace, syscall_trace, St.init, List.nil_append,
      List.mem_append, List.mem_singleton, mem_ite_singleton] at he
    rcases he with rfl | ⟨-, rfl⟩
    · exact ⟨rfl, rfl, rfl⟩
    · exact ⟨rfl, rfl, rfl⟩

/-! ## Claims about the reset -/

theorem control_calls (h : Hdr) (env : Env) (call : Call) (op : Npop) (note : Event)
    (msg : String) (s : St) :
    (control h env call op note msg s).2.calls =
      s.calls ++ call :: .open_printer h.O_RDWR ::
        (if (openReply h env s).ret < 0 then [.explain_errno "open"]
         else if (controlReply h env op note s).ret = -1 then [.explain_errno msg]
         else []) := by
  by_cases hopen : (openReply h env s).ret < 0
  · rw [if_pos hopen]
    exact (control_open_failed h env call op note msg s hopen).2.2.1
  · rw [if_neg hopen]
    by_cases hreq : (controlReply h env op note s).ret = -1
    · rw [if_pos hreq]
      exact (control_request_failed h env call op note msg s hopen hreq).2.2.1
    · rw [if_neg hreq]
      exact (control_done h env call op note msg s hopen hreq).2.2.1

theorem control_no_sleep (h : Hdr) (env : Env) (call : Call) (op : Npop) (note : Event)
    (msg : String) (s : St) (hn : note.isOutput = true) :
    ∀ e ∈ newEvents s (control h env call op note msg s).2, e.isSleep = false := by
  have hmsg : ∀ (k : ErrKind) (m : String), (k.message m).isSleep = false := fun k m =>
    (Event.isOutput_not_device _ (ErrKind.message_isOutput m k)).2.2.2
  intro e he
  rw [control_newEvents] at he
  split_ifs at he with hopen hreq
  · simp only [List.mem_cons, List.mem_singleton, List.not_mem_nil, or_false, false_or] at he
    rcases he with rfl | rfl
    · rfl
    · exact hmsg _ _
  · simp only [List.cons_append, List.mem_cons, List.mem_append, List.mem_singleton,
      List.not_mem_nil, or_false, false_or] at he
    rcases he with rfl | he | rfl | rfl | rfl
    · rfl
    · exact (Event.isOutput_not_device e (controlNotes_isOutput note hn s e he)).2.2.2
    · rfl
    · exact hmsg _ _
    · rfl
  · simp only [List.cons_append, List.nil_append, List.mem_cons, List.mem_append,
      List.mem_singleton, List.not_mem_nil, or_false, false_or] at he
    rcases he with rfl | he | rfl | rfl
    · rfl
    · exact (Event.isOutput_not_device e (controlNotes_isOutput note hn s e he)).2.2.2
    · rfl
    · rfl

theorem control_setPower_calls (h : Hdr) (env : Env) (on_ : Int) (s : St) :
    ∃ cs, (set_power h env on_ s).2.calls = s.calls ++ .set_power on_ :: cs ∧
      cs.filter Call.isSetPower = [] := by
  rw [set_power_eq_control, control_calls]
  refine ⟨_, rfl, ?_⟩
  split_ifs <;> rfl

/-- C6. `reset_printer` first calls `set_power(0)`. That call fails exactly when its open
fails or its control call returns -1; `reset_printer` then returns -1 in the state that
call left, with no delay and no other call of `set_power`. Otherwise it sleeps one
second and calls `set_power(1)`, whose result it returns: the events are those of the
power-off, the one delay of 1 second, those of the power-on, in this order. -/
theorem reset_printer_sequence (h : Hdr) (env : Env) (s : St) :
    ((set_power h env 0 (enter .reset_printer s)).1 < 0 ↔
      ((openReply h env s).ret < 0 ∨
        (controlReply h env (powerOp h 0) (powerNote 0) s).ret = -1)) ∧
    ((set_power h env 0 (enter .reset_printer s)).1 < 0 →
      reset_printer h env s = (-1, (set_power h env 0 (enter .reset_printer s)).2) ∧
      (∀ e ∈ newEvents s (reset_printer h env s).2, e.isSleep = false) ∧
      (newCalls s (reset_printer h env s).2).filter Call.isSetPower = [.set_power 0]) ∧
    (¬ (set_power h env 0 (enter .reset_printer s)).1 < 0 →
      reset_printer h env s =
        set_power h env 1
          (syscall env (.sys_sleep 1) (set_power h env 0 (enter .reset_printer s)).2).2 ∧
      (∃ off on_, newEvents s (reset_printer h env s).2 = off ++ .sys_sleep 1 :: on_ ∧
        off = newEvents s (set_power h env 0 (enter .reset_printer s)).2 ∧
        on_ = newEvents
          (syscall env (.sys_sleep 1) (set_power h env 0 (enter .reset_printer s)).2).2
          (reset_printer h env s).2 ∧
        (∀ e ∈ off, e.isSleep = false) ∧ (∀ e ∈ on_, e.isSleep = false)) ∧
      (newCalls s (reset_printer h env s).2).filter Call.isSetPower =
        [.set_power 0, .set_power 1]) := by
  have hres : (set_power h env 0 (enter .reset_printer s)).1 =
      if (openReply h env s).ret < 0 ∨
          (controlReply h env (powerOp h 0) (powerNote 0) s).ret = -1 then -1 else 0 := by
    rw [set_power_eq_control, control_result]; rfl
  have hoff_tr : (set_power h env 0 (enter .reset_printer s)).2.trace =
      s.trace ++ newEvents s (set_power h env 0 (enter .reset_printer s)).2 := by
    rw [set_power_eq_control]
    exact control_trace_append h env _ _ _ _ (enter .reset_printer s)
  have hoff_sl : ∀ e ∈ newEvents s (set_power h env 0 (enter .reset_printer s)).2,
      e.isSleep = false := by
    rw [set_power_eq_control]
    exact control_no_sleep h env _ _ _ _ (enter .reset_printer s) rfl
  obtain ⟨cs0, hcs0, hf0⟩ := control_setPower_calls h env 0 (enter .reset_printer s)
  refine ⟨?_, ?_, ?_⟩
  · rw [hres]
    split_ifs with hc
    · simp [hc]
    · simp [hc]
  · intro hlt
    have hrp : reset_printer h env s = (-1, (set_power h env 0 (enter .reset_printer s)).2) := by
      simp [reset_printer, hlt]
    refine ⟨hrp, ?_, ?_⟩
    · rw [hrp]; exact hoff_sl
    · rw [hrp]
      have : newCalls s (set_power h env 0 (enter .reset_printer s)).2 =
          .reset_printer :: .set_power 0 :: cs0 := by
        apply newCalls_of_append
        rw [hcs0]; simp
      rw [this]
      simp [List.filter_cons, hf0, Call.isSetPower]
  · intro hge
    have hrp : reset_printer h env s =
        set_power h env 1
          (syscall env (.sys_sleep 1) (set_power h env 0 (enter .reset_printer s)).2).2 := by
      simp [reset_printer, hge]
    have hon_tr := control_trace_append h env (.set_power 1) (powerOp h 1) (powerNote 1)
      "ioctl(NPSETPOWER)"
      (syscall env (.sys_sleep 1) (set_power h env 0 (enter .reset_printer s)).2).2
    have hon_sl := control_no_sleep h env (.set_power 1) (powerOp h 1) (powerNote 1)
      "ioctl(NPSETPOWER)"
      (syscall env (.sys_sleep 1) (set_power h env 0 (enter .reset_printer s)).2).2 rfl
    rw [← set_power_eq_control] at hon_tr hon_sl
    obtain ⟨cs1, hcs1, hf1⟩ := control_setPower_calls h env 1
      (syscall env (.sys_sleep 1) (set_power h env 0 (enter .reset_printer s)).2).2
    refine ⟨hrp, ⟨_, _, ?_, rfl, rfl, hoff_sl, ?_⟩, ?_⟩
    · apply newEvents_of_append
      rw [hrp]
      rw [hon_tr, syscall_trace, hoff_tr]
      simp
    · rw [hrp]; exact hon_sl
    · rw [hrp]
      have : newCalls s (set_power h env 1
          (syscall env (.sys_sleep 1) (set_power h env 0 (enter .reset_printer s)).2).2).2 =
          .reset_printer :: .set_power 0 :: cs0 ++ .set_power 1 :: cs1 := by
        apply newCalls_of_append
        rw [hcs1, syscall_calls, hcs0]; simp
      rw [this]
      simp [List.filter_cons, List.filter_append, hf0, hf1, Call.isSetPower]

/-- C6 at concrete devices: when the power-off control call fails, the reset returns -1
after the events of that one call; when everything succeeds, the events are open,
power-off, close, the delay of 1 second, open, power-on, close. -/
theorem reset_printer_sequence_witness :
    reset_printer sampleHdr envControlFails St.init =
      (-1, (set_power sampleHdr envControlFails 0 (enter .reset_printer St.init)).2) ∧
    (reset_printer sampleHdr envControlFails St.init).2.trace =
      [openRequest sampleHdr, .sys_ioctl 0 100 (powerOp sampleHdr 0),
       .fprintf_stderr "%s: I/O error talking to printer\n" [.str "ioctl(NPSETPOWER)"],
       .sys_close 0] ∧
    (reset_printer sampleHdr (scripted []) St.init).1 = 0 ∧
    (reset_printer sampleHdr (scripted []) St.init).2.trace =
      [openRequest sampleHdr, .sys_ioctl 0 100 (powerOp sampleHdr 0), .sys_close 0,
       .sys_sleep 1,
       openRequest sampleHdr, .sys_ioctl 0 100 (powerOp sampleHdr 1), .sys_close 0] := by
  refine ⟨((reset_printer_sequence sampleHdr envControlFails St.init).2.1 (by decide)).1,
    by decide, by decide, by decide⟩

/-! ## Claims about the exit code -/

theorem print_file_eq (env : Env) (path : String) (s : St) :
    print_file env path s =
      if 512 < 4 + path.utf8ByteSize + 1 then none
      else if (spoolReply env path s).ret ≠ 0 then
        some (-1, emit (.fprintf_stderr "Failed to print %s via lpr (exit code %d)\n"
          [.str path, .int (spoolReply env path s).ret])
          (syscall env (spoolRequest path)
            (emit_if (s.verbose ≠ 0) (.printf "[VERBOSE] Sending %s to lpr...\n" [.str path])
              (enter (.print_file path) s))).2)
      else
        some (0, emit_if (s.verbose ≠ 0) (.printf "[VERBOSE] lpr finished successfully.\n" [])
          (syscall env (spoolRequest path)
            (emit_if (s.verbose ≠ 0) (.printf "[VERBOSE] Sending %s to lpr...\n" [.str path])
              (enter (.print_file path) s))).2) := by
  unfold print_file
  simp only [spoolReply, spoolRequest, syscall_fst, emit_if_trace, enter_trace, emit_if_verbose,
    enter_verbose, syscall_verbose]

theorem main_dispatch_usage (h : Hdr) (env : Env) (prog : String) (v : Bool) (cmd : String)
    (rest : List String) (s : St) (hc : cmd ∉ commands) :
    main_dispatch h env (commandLine prog v cmd rest) (if v then 2 else 1) cmd s =
      some (1, usage prog s) := by
  simp only [commands, List.mem_cons, List.mem_singleton, List.not_mem_nil, or_false,
    not_or] at hc
  obtain ⟨h1, h2, h3, h4, h5, h6, h7, h8⟩ := hc
  simp only [main_dispatch, h1, h2, h3, h4, h5, h6, h7, h8, commandLine_zero]
  simp

theorem main_dispatch_setdpi (h : Hdr) (env : Env) (prog : String) (v : Bool)
    (rest : List String) (s : St) :
    main_dispatch h env (commandLine prog v "setdpi" rest) (if v then 2 else 1) "setdpi" s =
      match rest with
      | [] => some (1, usage prog s)
      | a :: _ =>
        if env.atoi a ≠ 300 ∧ env.atoi a ≠ 400 then some (1, emit unsupportedDpi s)
        else some (exitWith 5 (set_resolution h env (env.atoi a) s)) := by
  have harg := commandLine_arg prog v "setdpi" rest 0
  have hlen := commandLine_length prog v "setdpi" rest
  cases rest with
  | nil =>
    simp only [List.length_nil, Nat.add_zero] at hlen
    simp only [main_dispatch, hlen, commandLine_zero]
    simp
  | cons a more =>
    simp only [List.length_cons] at hlen
    simp only [Nat.zero_add, List.getElem?_cons_zero] at harg
    have hn : ¬ (commandLine prog v "setdpi" (a :: more)).length ≤ (if v then 2 else 1) + 1 := by
      omega
    simp only [main_dispatch, hn, harg]
    simp [exitWith, unsupportedDpi]

theorem main_dispatch_power (h : Hdr) (env : Env) (argv : List String) (argi : Nat) (s : St) :
    main_dispatch h env argv argi "on" s = some (exitWith 2 (set_power h env 1 s)) ∧
    main_dispatch h env argv argi "off" s = some (exitWith 3 (set_power h env 0 s)) ∧
    main_dispatch h env argv argi "reset" s = some (exitWith 8 (reset_printer h env s)) := by
  refine ⟨?_, ?_, ?_⟩ <;> simp [main_dispatch, exitWith]

theorem main_dispatch_setmargins (h : Hdr) (env : Env) (prog : String) (v : Bool)
    (rest : List String) (s : St) :
    (rest.length < 4 →
      main_dispatch h env (commandLine prog v "setmargins" rest) (if v then 2 else 1)
        "setmargins" s = some (1, usage prog s)) ∧
    (∀ l t w ht more, rest = l :: t :: w :: ht :: more →
      main_dispatch h env (commandLine prog v "setmargins" rest) (if v then 2 else 1)
        "setmargins" s =
        some (exitWith 6
          (set_margins h env (env.atoi l) (env.atoi t) (env.atoi w) (env.atoi ht) s))) := by
  have hlen := commandLine_length prog v "setmargins" rest
  constructor
  · intro hshort
    have hn : (commandLine prog v "setmargins" rest).length ≤ (if v then 2 else 1) + 4 := by
      omega
    simp only [main_dispatch, hn, commandLine_zero]
    simp
  · rintro l t w ht more rfl
    have h0 := commandLine_arg prog v "setmargins" (l :: t :: w :: ht :: more) 0
    have h1 := commandLine_arg prog v "setmargins" (l :: t :: w :: ht :: more) 1
    have h2 := commandLine_arg prog v "setmargins" (l :: t :: w :: ht :: more) 2
    have h3 := commandLine_arg prog v "setmargins" (l :: t :: w :: ht :: more) 3
    simp only [List.length_cons] at hlen
    have hn : ¬ (commandLine prog v "setmargins" (l :: t :: w :: ht :: more)).length ≤
        (if v then 2 else 1) + 4 := by omega
    simp only [Nat.zero_add, Nat.reduceAdd, List.getElem?_cons_zero, List.getElem?_cons_succ]
      at h0 h1 h2 h3
    simp only [main_dispatch, hn, h0, h1, h2, h3]
    simp [exitWith]

theorem main_dispatch_print (h : Hdr) (env : Env) (prog : String) (v : Bool)
    (rest : List String) (s : St) :
    main_dispatch h env (commandLine prog v "print" rest) (if v then 2 else 1) "print" s =
      match rest with
      | [] => some (1, usage prog s)
      | path :: _ => (print_file env path s).map (exitWith 7) := by
  have harg := commandLine_arg prog v "print" rest 0
  have hlen := commandLine_length prog v "print" rest
  cases rest with
  | nil =>
    simp only [List.length_nil, Nat.add_zero] at hlen
    simp only [main_dispatch, hlen, commandLine_zero]
    simp
  | cons a more =>
    simp only [List.length_cons] at hlen
    simp only [Nat.zero_add, List.getElem?_cons_zero] at harg
    have hn : ¬ (commandLine prog v "print" (a :: more)).length ≤ (if v then 2 else 1) + 1 := by
      omega
    simp only [main_dispatch, hn, harg]
    cases hp : print_file env a s with
    | none => simp [hp]
    | some p => simp [hp, exitWith]

theorem main_dispatch_demo (h : Hdr) (env : Env) (argv : List String) (argi : Nat) (s : St) :
    main_dispatch h env argv argi "demo" s = (demo_page env s).map (exitWith 9) := by
  simp only [main_dispatch]
  cases hp : demo_page env s with
  | none => simp
  | some p => simp [exitWith]

theorem control_supported (h : Hdr) (env : Env) (call : Call) (op : Npop) (note : Event)
    (msg : String) (s : St) (hs : Supported s.calls) (hc : Supported [call]) :
    Supported (control h env call op note msg s).2.calls := by
  intro dpi hmem
  rw [control_calls] at hmem
  simp only [List.mem_append, List.mem_cons] at hmem
  rcases hmem with hmem | hmem | hmem | hmem
  · exact hs dpi hmem
  · exact hc dpi (by rw [hmem]; exact List.mem_singleton.2 rfl)
  · cases hmem
  · split_ifs at hmem <;> simp at hmem

theorem usage_supported (p : String) (s : St) (hs : Supported s.calls) :
    Supported (usage p s).calls := by
  intro dpi hmem
  simp only [usage, emit_calls, enter_calls, List.mem_append, List.mem_singleton] at hmem
  rcases hmem with hmem | hmem
  · exact hs dpi hmem
  · cases hmem

theorem reset_printer_supported (h : Hdr) (env : Env) (s : St) (hs : Supported s.calls) :
    Supported (reset_printer h env s).2.calls := by
  have h0 : Supported (set_power h env 0 (enter .reset_printer s)).2.calls := by
    rw [set_power_eq_control]
    apply control_supported
    · intro dpi hmem
      simp only [enter_calls, List.mem_append, List.mem_singleton] at hmem
      rcases hmem with hmem | hmem
      · exact hs dpi hmem
      · cases hmem
    · intro dpi hmem
      simp at hmem
  unfold reset_printer
  by_cases hlt : (set_power h env 0 (enter .reset_printer s)).1 < 0
  · simp only [hlt, if_true]
    exact h0
  · simp only [hlt, if_false]
    rw [set_power_eq_control]
    apply control_supported
    · simpa using h0
    · intro dpi hmem
      simp at hmem

theorem query_status_supported (h : Hdr) (env : Env) (fd v : Int) (s s' : St)
    (hs : Supported s.calls) (hq : query_status h env fd v s = some s') :
    Supported s'.calls := by
  rw [query_status_eq] at hq
  intro dpi hmem
  split_ifs at hq
  all_goals
    simp only [Option.some.injEq] at hq
    subst hq
    simp [reported, query_status_report] at hmem
    exact hs dpi hmem

theorem print_file_supported (env : Env) (path : String) (s : St) (p : Int × St)
    (hs : Supported s.calls) (hp : print_file env path s = some p) :
    Supported p.2.calls := by
  rw [print_file_eq] at hp
  intro dpi hmem
  split_ifs at hp
  all_goals
    simp only [Option.some.injEq] at hp
    subst hp
    simp at hmem
    exact hs dpi hmem

theorem demo_page_supported (env : Env) (s : St) (p : Int × St)
    (hs : Supported s.calls) (hp : demo_page env s = some p) :
    Supported p.2.calls := by
  unfold demo_page at hp
  simp only [syscall_fst, enter_trace] at hp
  split_ifs at hp with hm hf
  · simp only [Option.some.injEq] at hp
    subst hp
    intro dpi hmem
    simp at hmem
    exact hs dpi hmem
  · simp only [Option.some.injEq] at hp
    subst hp
    intro dpi hmem
    simp at hmem
    exact hs dpi hmem
  · split at hp
    · cases hp
    · rename_i r s1 hpf
      simp only [Option.some.injEq] at hp
      subst hp
      have h1 : Supported s1.calls := by
        refine print_file_supported env _ _ (r, s1) ?_ hpf
        intro dpi hmem
        simp only [emit_if_calls, syscall_calls, emit_calls, enter_calls, List.mem_append,
          List.mem_singleton] at hmem
        rcases hmem with hmem | hmem
        · exact hs dpi hmem
        · cases hmem
      intro dpi hmem
      simp at hmem
      exact h1 dpi hmem

theorem open_printer_supported (h : Hdr) (env : Env) (s : St) (hs : Supported s.calls) :
    Supported (open_printer h env h.O_RDWR s).2.calls := by
  unfold open_printer
  simp only [syscall_fst, enter_trace]
  intro dpi hmem
  split_ifs at hmem <;> simp at hmem <;> exact hs dpi hmem

theorem main_dispatch_supported (h : Hdr) (env : Env) (prog : String) (v : Bool)
    (cmd : String) (rest : List String) (s : St) (hs : Supported s.calls) (p : Int × St)
    (hp : main_dispatch h env (commandLine prog v cmd rest) (if v then 2 else 1) cmd s =
      some p) :
    Supported p.2.calls := by
  by_cases hc : cmd ∈ commands
  · simp only [commands, List.mem_cons, List.mem_singleton, List.not_mem_nil, or_false] at hc
    rcases hc with rfl | rfl | rfl | rfl | rfl | rfl | rfl | rfl
    · rw [(main_dispatch_power h env _ _ _).1, Option.some.injEq] at hp
      subst hp
      rw [set_power_eq_control]
      exact control_supported h env _ _ _ _ s hs (by intro dpi hmem; simp at hmem)
    · rw [(main_dispatch_power h env _ _ _).2.1, Option.some.injEq] at hp
      subst hp
      rw [set_power_eq_control]
      exact control_supported h env _ _ _ _ s hs (by intro dpi hmem; simp at hmem)
    · rw [(main_dispatch_power h env _ _ _).2.2, Option.some.injEq] at hp
      subst hp
      exact reset_printer_supported h env s hs
    · simp only [main_dispatch] at hp
      simp only [String.reduceEq, if_false, if_true] at hp
      by_cases hfd : (open_printer h env h.O_RDWR s).1 < 0
      · simp only [hfd, if_true, Option.some.injEq] at hp
        subst hp
        exact open_printer_supported h env s hs
      · simp only [hfd, if_false] at hp
        cases hq : query_status h env (open_printer h env h.O_RDWR s).1
            (open_printer h env h.O_RDWR s).2.verbose (open_printer h env h.O_RDWR s).2 with
        | none => simp [hq] at hp
        | some s1 =>
          simp [hq] at hp
          subst hp
          have := query_status_supported h env _ _ _ s1 (open_printer_supported h env s hs) hq
          simpa using this
    · rw [main_dispatch_setdpi] at hp
      cases rest with
      | nil =>
        simp only [Option.some.injEq] at hp
        subst hp
        exact usage_supported prog s hs
      | cons a more =>
        simp only at hp
        split_ifs at hp with hbad
        · simp only [Option.some.injEq] at hp
          subst hp
          simpa using hs
        · simp only [Option.some.injEq] at hp
          subst hp
          have hgood : env.atoi a = 300 ∨ env.atoi a = 400 := by tauto
          simp only [exitWith]
          rw [set_resolution_eq_control]
          apply control_supported h env _ _ _ _ s hs
          intro dpi hmem
          simp only [List.mem_singleton, Call.set_resolution.injEq] at hmem
          rw [hmem]; exact hgood
    · by_cases hlen : rest.length < 4
      · rw [(main_dispatch_setmargins h env prog v rest s).1 hlen, Option.some.injEq] at hp
        subst hp
        exact usage_supported prog s hs
      · obtain ⟨l, t, w, ht, more, rfl⟩ : ∃ l t w ht more, rest = l :: t :: w :: ht :: more := by
          match rest, hlen with
          | l :: t :: w :: ht :: more, _ => exact ⟨l, t, w, ht, more, rfl⟩
          | [], hl => simp at hl
          | [_], hl => simp at hl
          | [_, _], hl => simp at hl
          | [_, _, _], hl => simp at hl
        rw [(main_dispatch_setmargins h env prog v _ s).2 l t w ht more rfl,
          Option.some.injEq] at hp
        subst hp
        simp only [exitWith]
        rw [set_margins_eq_control]
        exact control_supported h env _ _ _ _ s hs (by intro dpi hmem; simp at hmem)
    · rw [main_dispatch_print] at hp
      cases rest with
      | nil =>
        simp only [Option.some.injEq] at hp
        subst hp
        exact usage_supported prog s hs
      | cons path more =>
        simp only [Option.map_eq_some'] at hp
        obtain ⟨q, hq, rfl⟩ := hp
        exact print_file_supported env path s q hs hq
    · rw [main_dispatch_demo] at hp
      simp only [Option.map_eq_some'] at hp
      obtain ⟨q, hq, rfl⟩ := hp
      exact demo_page_supported env s q hs hq
  · rw [main_dispatch_usage h env prog v cmd rest s hc, Option.some.injEq] at hp
    subst hp
    exact usage_supported prog s hs

theorem prologue_calls (env : Env) (v : Bool) : (prologue env v).calls = [] := by
  simp [prologue, St.init]

theorem prologue_trace (env : Env) (v : Bool) :
    (prologue env v).trace =
      .sys_geteuid :: (if (env.reply [.sys_geteuid]).ret ≠ 0 then [rootWarning] else []) := by
  simp [prologue, St.init]

theorem main_supported (h : Hdr) (env : Env) (argv : List String) (p : Int × St)
    (hp : main h env argv = some p) : Supported p.2.calls := by
  have hnil : Supported ([] : List Call) := by intro dpi hmem; cases hmem
  match argv, hp with
  | [], hp => simp [main] at hp
  | [prog], hp =>
    rw [(main_short h env prog).1, Option.some.injEq] at hp
    subst hp
    exact usage_supported prog _ hnil
  | prog :: a1 :: tl, hp =>
    by_cases hv : a1 = "-v"
    · subst hv
      cases tl with
      | nil =>
        rw [(main_short h env prog).2, Option.some.injEq] at hp
        subst hp
        exact usage_supported prog _ hnil
      | cons cmd rest =>
        have hcl : prog :: "-v" :: cmd :: rest = commandLine prog true cmd rest := rfl
        rw [hcl, main_commandLine h env prog true cmd rest (by intro hc; cases hc)] at hp
        exact main_dispatch_supported h env prog true cmd rest _
          (by rw [prologue_calls]; exact hnil) p hp
    · have hcl : prog :: a1 :: tl = commandLine prog false a1 tl := rfl
      rw [hcl, main_commandLine h env prog false a1 tl (fun _ => hv)] at hp
      exact main_dispatch_supported h env prog false a1 tl _
        (by rw [prologue_calls]; exact hnil) p hp

/-- C10. Whatever the argument vector, every call of `set_resolution` that a run of
`main` makes has `dpi` equal to 300 or 400. When the argument of `setdpi` is read by `atoi` as any
other integer, `main` prints that only 300 and 400 are supported and exits with 1; its
trace then holds no open, control call or close, and it has entered no function of the
program, so neither `open_printer` nor `set_resolution`. -/
theorem set_resolution_only_supported (h : Hdr) (env : Env) :
    (∀ (argv : List String) (code : Int) (s' : St), main h env argv = some (code, s') →
      ∀ dpi : Int, Call.set_resolution dpi ∈ s'.calls → dpi = 300 ∨ dpi = 400) ∧
    (∀ (prog : String) (v : Bool) (a : String) (more : List String),
      env.atoi a ≠ 300 → env.atoi a ≠ 400 →
      ∃ s', main h env (commandLine prog v "setdpi" (a :: more)) = some (1, s') ∧
        s'.calls = [] ∧
        (∀ e ∈ s'.trace, e.isOpen = false ∧ e.isIoctl = false ∧ e.isClose = false)) := by
  refine ⟨fun argv code s' hp => main_supported h env argv (code, s') hp, ?_⟩
  intro prog v a more h3 h4
  refine ⟨emit unsupportedDpi (prologue env v), ?_, ?_, ?_⟩
  · rw [main_commandLine h env prog v "setdpi" (a :: more) (by intro _; decide),
      main_dispatch_setdpi]
    simp [h3, h4]
  · rw [emit_calls, prologue_calls]
  · intro e he
    rw [emit_trace, prologue_trace] at he
    simp only [List.cons_append, List.mem_cons, List.mem_append, mem_ite_singleton,
      List.mem_singleton, List.not_mem_nil, or_false] at he
    rcases he with rfl | ⟨-, rfl⟩ | rfl
    · exact ⟨rfl, rfl, rfl⟩
    · exact ⟨rfl, rfl, rfl⟩
    · exact ⟨rfl, rfl, rfl⟩

/-- C10 at concrete runs: `npctl setdpi 600` exits with 1 and enters no function;
`npctl setdpi 400` calls `set_resolution(400)`. -/
theorem set_resolution_only_supported_witness :
    (scripted []).atoi "600" = 600 ∧
    (∃ s', main sampleHdr (scripted []) ["npctl", "setdpi", "600"] = some (1, s') ∧
      s'.calls = []) ∧
    (∃ s', main sampleHdr (scripted []) ["npctl", "setdpi", "400"] = some (0, s') ∧
      Call.set_resolution 400 ∈ s'.calls) := by
  refine ⟨by decide, ?_, ⟨_, rfl, by decide⟩⟩
  obtain ⟨s', hs', hcalls, -⟩ :=
    (set_resolution_only_supported sampleHdr (scripted [])).2 "npctl" false "600" []
      (by decide) (by decide)
  exact ⟨s', hs', hcalls⟩

end Npctl
